import Mathlib

/-!
Verification of the horse-trainer recommendation core
(`src/models/horse_profile.py`, `src/models/training_model.py`,
`src/data/preprocessor.py`, `src/data/data_loader.py`, `src/config.py`)
as a shallow embedding in Lean 4.

Conventions used throughout:
* Python `datetime.date` is modelled by the `Date` structure below; the
  proleptic-Gregorian ordinal (`date.toordinal`) is translated verbatim from
  CPython's `_ymd2ord`.  Comparisons between `date` objects are modelled by
  comparing ordinals, which agrees with Python's lexicographic comparison on
  valid dates.
* `date.today()` is an effect; every function that calls it takes an explicit
  `today : Date` argument.
* Python ints are `Int`/`Nat`, floats are idealised as `Rat`.
* Fallible Python code (raising exceptions) is embedded in `Except String`.
-/

/-- A calendar date, modelling Python `datetime.date(year, month, day)`. -/
structure Date where
  year : Nat
  month : Nat
  day : Nat
deriving DecidableEq, Repr

/-- Leap-year test, as in CPython `datetime._is_leap`. -/
def isLeapYear (y : Nat) : Bool :=
  y % 4 = 0 && (y % 100 ≠ 0 || y % 400 = 0)

/-- Days in a month, as in CPython `datetime._days_in_month`. -/
def daysInMonth (y m : Nat) : Nat :=
  if m = 2 then (if isLeapYear y then 29 else 28)
  else if m = 4 ∨ m = 6 ∨ m = 9 ∨ m = 11 then 30
  else 31

/-- Days in all months strictly before month `m`
(CPython `datetime._days_before_month`). -/
def daysBeforeMonth (y m : Nat) : Nat :=
  (List.range (m - 1)).foldl (fun acc i => acc + daysInMonth y (i + 1)) 0

/-- Days before January 1st of year `y`
(CPython `datetime._days_before_year`). -/
def daysBeforeYear (y : Nat) : Nat :=
  let p := y - 1
  p * 365 + p / 4 - p / 100 + p / 400

/-- `date.toordinal()`: the proleptic-Gregorian ordinal of the date, with
0001-01-01 having ordinal 1 (CPython `datetime._ymd2ord`).  The result is an
`Int` so that subtracting a number of days stays total. -/
def Date.toordinal (d : Date) : Int :=
  (daysBeforeYear d.year + daysBeforeMonth d.year d.month + d.day : Nat)

/-- A valid Python `datetime.date`: year in `MINYEAR..MAXYEAR`, month in
`1..12`, day in `1..days_in_month`. -/
def ValidDate (d : Date) : Prop :=
  1 ≤ d.year ∧ d.year ≤ 9999 ∧ 1 ≤ d.month ∧ d.month ≤ 12 ∧
    1 ≤ d.day ∧ d.day ≤ daysInMonth d.year d.month

instance (d : Date) : Decidable (ValidDate d) := by
  unfold ValidDate; infer_instance

/-- `MedicalRecord` dataclass from `src/models/horse_profile.py`. -/
structure MedicalRecord where
  date : Date
  condition : String
  treatment : String
  notes : Option String := none
deriving DecidableEq, Repr

/-- `TrainingSession` dataclass from `src/models/horse_profile.py`. -/
structure TrainingSession where
  date : Date
  activity_type : String
  duration_minutes : Int
  intensity : String
  performance_rating : Int
  notes : Option String := none
deriving DecidableEq, Repr

/-- `HorseProfile` dataclass from `src/models/horse_profile.py`.
`lineage` (a Python dict) is an insertion-ordered association list. -/
structure HorseProfile where
  id : String
  name : String
  breed : String
  birth_date : Date
  sex : String
  color : String
  height_hands : Rat
  weight_kg : Rat
  lineage : List (String × String) := []
  dietary_restrictions : List String := []
  medical_history : List MedicalRecord := []
  training_history : List TrainingSession := []
deriving DecidableEq, Repr

/-- The `age` property of `HorseProfile`:
`today.year - born.year - ((today.month, today.day) < (born.month, born.day))`.
Python tuple comparison is lexicographic, written out explicitly here. -/
def HorseProfile.age (today : Date) (h : HorseProfile) : Int :=
  (today.year : Int) - h.birth_date.year -
    (if today.month < h.birth_date.month ∨
        (today.month = h.birth_date.month ∧ today.day < h.birth_date.day)
     then 1 else 0)

/-- The `recent_training` property: sessions dated within the last 30 days
(`session.date >= date.fromordinal(today.toordinal() - 30)`; date comparison
is done on ordinals). -/
def HorseProfile.recentTraining (today : Date) (h : HorseProfile) :
    List TrainingSession :=
  h.training_history.filter (fun s => s.date.toordinal ≥ today.toordinal - 30)

/-- The `has_medical_conditions` property: false on an empty history,
otherwise true iff some record is dated within the last 90 days
(`record.date >= date.fromordinal(today.toordinal() - 90)`). -/
def HorseProfile.hasMedicalConditions (today : Date) (h : HorseProfile) : Bool :=
  if h.medical_history.isEmpty then false
  else h.medical_history.any (fun r => r.date.toordinal ≥ today.toordinal - 90)

/-! ## Python `round` (banker's rounding) -/

/-- Python's built-in `round` on a rational: round half to even. -/
def pyRound (q : Rat) : Int :=
  let f : Int := ⌊q⌋
  let r : Rat := q - (f : Rat)
  if r < 1/2 then f
  else if 1/2 < r then f + 1
  else if f % 2 = 0 then f else f + 1

theorem pyRound_intCast (k : Int) : pyRound (k : Rat) = k := by
  unfold pyRound
  simp [Int.floor_intCast]

/-! ## `TrainingModel._recommend_duration` and `_recommend_intensity`
(`src/models/training_model.py`, lines 348–410) -/

/-- The base-intensity mapping inside `_recommend_intensity`:
`activity in ['gallop', 'jump']` is high, `['canter', 'dressage', 'trail']`
is medium, everything else low. -/
def baseIntensity (activity : String) : String :=
  if activity ∈ ["gallop", "jump"] then "high"
  else if activity ∈ ["canter", "dressage", "trail"] then "medium"
  else "low"

/-- The `base_durations` dict lookup `base_durations.get(activity, 30)`. -/
def baseDuration (activity : String) : Int :=
  if activity = "trot" then 30
  else if activity = "canter" then 20
  else if activity = "gallop" then 15
  else if activity = "jump" then 25
  else if activity = "dressage" then 40
  else if activity = "trail" then 45
  else if activity = "groundwork" then 35
  else 30

/-- `TrainingModel._recommend_duration`: base duration by activity, with
age-based and medical-condition reductions (each floored at 15), then
`round(duration / 5) * 5`. -/
def recommendDuration (today : Date) (horse : HorseProfile)
    (activity : String) : Int :=
  let duration := baseDuration activity
  let duration :=
    if horse.age today < 3 then max 15 (duration - 15)
    else if horse.age today > 15 then max 15 (duration - 10)
    else duration
  let duration :=
    if horse.hasMedicalConditions today then max 15 (duration - 10)
    else duration
  pyRound ((duration : Rat) / 5) * 5

/-- `TrainingModel._recommend_intensity`.  The Python body is a sequence of
early returns; the translation lists the returns in source order:
inside `if age < 3 or age > 15`, `high` returns `medium` and `medium`
returns `low` (while `low` falls through); then inside
`if has_medical_conditions`, `high` returns `medium` and `medium` returns
`low`; finally `base_intensity` is returned. -/
def recommendIntensity (today : Date) (horse : HorseProfile)
    (activity : String) : String :=
  let base := baseIntensity activity
  if (horse.age today < 3 ∨ horse.age today > 15) ∧ base = "high" then "medium"
  else if (horse.age today < 3 ∨ horse.age today > 15) ∧ base = "medium" then "low"
  else if horse.hasMedicalConditions today ∧ base = "high" then "medium"
  else if horse.hasMedicalConditions today ∧ base = "medium" then "low"
  else base

/-! ## Claim C1 — intensity step-downs -/

/-- One intensity step-down as worded in the spec:
high→medium, medium→low, low stays low. -/
def stepDown (s : String) : String :=
  if s = "high" then "medium" else if s = "medium" then "low" else s

/-- Numeric rank of an intensity level (low 0, medium 1, high 2),
used to state that the recommended intensity never exceeds the base one. -/
def intensityRank (s : String) : Nat :=
  if s = "high" then 2 else if s = "medium" then 1 else 0

theorem baseIntensity_cases (activity : String) :
    baseIntensity activity = "high" ∨ baseIntensity activity = "medium" ∨
      baseIntensity activity = "low" := by
  unfold baseIntensity
  split_ifs <;> simp

/-- The intensity the claim predicts: the base mapping stepped down once for
an out-of-range age and once more, independently, for medical conditions. -/
def claimedIntensityC1 (today : Date) (horse : HorseProfile)
    (activity : String) : String :=
  let afterAge :=
    if horse.age today < 3 ∨ horse.age today > 15
    then stepDown (baseIntensity activity) else baseIntensity activity
  if horse.hasMedicalConditions today then stepDown afterAge else afterAge

/-- Concrete evaluation date used for the C1 counterexample. -/
def todayC1 : Date := ⟨2026, 10, 12⟩

/-- A 2-year-old horse with a medical record 22 days old. -/
def horseC1 : HorseProfile :=
  { id := "H900", name := "Foal", breed := "Thoroughbred",
    birth_date := ⟨2024, 6, 1⟩, sex := "male", color := "bay",
    height_hands := 14, weight_kg := 300,
    medical_history := [⟨⟨2026, 9, 20⟩, "colic", "rest", none⟩] }

/-- C1 counterexample: for a 2-year-old horse with a recent medical record
the code recommends intensity "medium" for gallop, not the "low" the claim
predicts — the two step-downs do not compound, because the age branch of
`_recommend_intensity` returns before the medical branch is reached. -/
theorem C1_counterexample :
    horseC1.age todayC1 < 3 ∧
    horseC1.hasMedicalConditions todayC1 = true ∧
    recommendIntensity todayC1 horseC1 "gallop" = "medium" ∧
    claimedIntensityC1 todayC1 horseC1 "gallop" = "low" ∧
    recommendIntensity todayC1 horseC1 "gallop" ≠
      claimedIntensityC1 todayC1 horseC1 "gallop" := by
  refine ⟨by decide, by decide, by decide, by decide, by decide⟩

/-- C1 (amended): the recommended intensity equals the base mapping stepped
down exactly once when the age is outside [3, 15] or the horse has medical
conditions — the two conditions never compound — and the recommended
intensity never ranks above the base intensity. -/
theorem C1_intensity_amended (today : Date) (horse : HorseProfile)
    (activity : String) :
    recommendIntensity today horse activity =
      (if horse.age today < 3 ∨ horse.age today > 15 ∨
          horse.hasMedicalConditions today = true
       then stepDown (baseIntensity activity) else baseIntensity activity) ∧
    intensityRank (recommendIntensity today horse activity) ≤
      intensityRank (baseIntensity activity) := by
  rcases baseIntensity_cases activity with hb | hb | hb <;>
    · unfold recommendIntensity stepDown intensityRank
      rw [hb]
      by_cases ha : horse.age today < 3 ∨ horse.age today > 15 <;>
        by_cases hm : horse.hasMedicalConditions today = true <;>
          simp [ha, hm]

/-! ## Claim C6 — recommended duration -/

/-- "result rounded to the nearest multiple of 5", with Python's `round`
tie-breaking. -/
def roundNearest5 (d : Int) : Int :=
  pyRound ((d : Rat) / 5) * 5

/-- The duration the claim describes: the activity base-duration table,
reduced by 15 (floored at 15) if age < 3, by 10 (floored at 15) if age > 15,
by a further 10 (floored at 15) if `has_medical_conditions`, rounded to the
nearest multiple of 5.  Written from the claim's wording, for comparison
with `recommendDuration`. -/
def claimedDurationC6 (today : Date) (horse : HorseProfile)
    (activity : String) : Int :=
  let base := baseDuration activity
  let d1 := if horse.age today < 3 then max 15 (base - 15) else base
  let d2 := if horse.age today > 15 then max 15 (d1 - 10) else d1
  let d3 := if horse.hasMedicalConditions today then max 15 (d2 - 10) else d2
  roundNearest5 d3

theorem baseDuration_bounds (activity : String) :
    15 ≤ baseDuration activity ∧ baseDuration activity % 5 = 0 := by
  unfold baseDuration
  split_ifs <;> norm_num

theorem roundNearest5_of_multiple (d : Int) (h : d % 5 = 0) :
    roundNearest5 d = d := by
  obtain ⟨k, hk⟩ : (5 : Int) ∣ d := Int.dvd_of_emod_eq_zero h
  subst hk
  unfold roundNearest5
  have h5 : ((5 * k : Int) : Rat) / 5 = (k : Rat) := by
    push_cast
    ring
  rw [h5, pyRound_intCast]
  ring

/-- C6: for every activity, age and medical-condition state, the recommended
duration is at least 15, a multiple of 5, and equal to the claim's
base-table-minus-reductions formula. -/
theorem C6_duration (today : Date) (horse : HorseProfile) (activity : String) :
    15 ≤ recommendDuration today horse activity ∧
    recommendDuration today horse activity % 5 = 0 ∧
    recommendDuration today horse activity =
      claimedDurationC6 today horse activity := by
  obtain ⟨hb1, hb2⟩ := baseDuration_bounds activity
  simp only [recommendDuration, claimedDurationC6]
  have hcode :
      15 ≤ (if horse.hasMedicalConditions today then
              max 15 ((if horse.age today < 3 then
                        max 15 (baseDuration activity - 15)
                      else if horse.age today > 15 then
                        max 15 (baseDuration activity - 10)
                      else baseDuration activity) - 10)
            else (if horse.age today < 3 then
                    max 15 (baseDuration activity - 15)
                  else if horse.age today > 15 then
                    max 15 (baseDuration activity - 10)
                  else baseDuration activity)) := by
    split_ifs <;> omega
  have hmod :
      (if horse.hasMedicalConditions today then
         max 15 ((if horse.age today < 3 then
                   max 15 (baseDuration activity - 15)
                 else if horse.age today > 15 then
                   max 15 (baseDuration activity - 10)
                 else baseDuration activity) - 10)
       else (if horse.age today < 3 then
               max 15 (baseDuration activity - 15)
             else if horse.age today > 15 then
               max 15 (baseDuration activity - 10)
             else baseDuration activity)) % 5 = 0 := by
    split_ifs <;> omega
  have heq :
      (if horse.hasMedicalConditions today then
         max 15 ((if horse.age today < 3 then
                   max 15 (baseDuration activity - 15)
                 else if horse.age today > 15 then
                   max 15 (baseDuration activity - 10)
                 else baseDuration activity) - 10)
       else (if horse.age today < 3 then
               max 15 (baseDuration activity - 15)
             else if horse.age today > 15 then
               max 15 (baseDuration activity - 10)
             else baseDuration activity))
      = (if horse.hasMedicalConditions today then
           max 15 ((if horse.age today > 15 then
                     max 15 ((if horse.age today < 3 then
                               max 15 (baseDuration activity - 15)
                             else baseDuration activity) - 10)
                   else (if horse.age today < 3 then
                           max 15 (baseDuration activity - 15)
                         else baseDuration activity)) - 10)
         else (if horse.age today > 15 then
                 max 15 ((if horse.age today < 3 then
                           max 15 (baseDuration activity - 15)
                         else baseDuration activity) - 10)
               else (if horse.age today < 3 then
                       max 15 (baseDuration activity - 15)
                     else baseDuration activity))) := by
    split_ifs <;> omega
  rw [show ∀ x : Int, pyRound ((x : Rat) / 5) * 5 = roundNearest5 x from
        fun x => rfl]
  rw [roundNearest5_of_multiple _ hmod, heq,
      roundNearest5_of_multiple _ (heq ▸ hmod)]
  exact ⟨heq ▸ hcode, heq ▸ hmod, rfl⟩

/-! ## ISO-8601 dates (`date.isoformat` / `date.fromisoformat`) -/

/-- The ASCII digit character for `n % 10`. -/
def digitChar (n : Nat) : Char := Char.ofNat (48 + n % 10)

/-- Parse one ASCII digit. -/
def parseDigit (c : Char) : Option Nat :=
  if '0' ≤ c ∧ c ≤ '9' then some (c.toNat - 48) else none

/-- `date.isoformat()`: the fixed-width string `YYYY-MM-DD`. -/
def Date.toIso (d : Date) : String :=
  String.mk [digitChar (d.year / 1000), digitChar (d.year / 100),
             digitChar (d.year / 10), digitChar d.year, '-',
             digitChar (d.month / 10), digitChar d.month, '-',
             digitChar (d.day / 10), digitChar d.day]

/-- `date.fromisoformat`: accepts exactly `YYYY-MM-DD` (as in Python ≤ 3.10)
and validates the date as the `date` constructor does; `none` models the
`ValueError` raised on any other input. -/
def Date.fromIso (s : String) : Option Date :=
  match s.data with
  | [y1, y2, y3, y4, s1, m1, m2, s2, d1, d2] =>
    if s1 = '-' ∧ s2 = '-' then
      match parseDigit y1, parseDigit y2, parseDigit y3, parseDigit y4,
            parseDigit m1, parseDigit m2, parseDigit d1, parseDigit d2 with
      | some a, some b, some c, some e, some f, some g, some h, some i =>
        let y := 1000 * a + 100 * b + 10 * c + e
        let mo := 10 * f + g
        let dy := 10 * h + i
        if 1 ≤ y ∧ 1 ≤ mo ∧ mo ≤ 12 ∧ 1 ≤ dy ∧ dy ≤ daysInMonth y mo then
          some ⟨y, mo, dy⟩
        else none
      | _, _, _, _, _, _, _, _ => none
    else none
  | _ => none

theorem parseDigit_digitChar (n : Nat) : parseDigit (digitChar n) = some (n % 10) := by
  unfold parseDigit digitChar
  have h : n % 10 < 10 := Nat.mod_lt _ (by norm_num)
  interval_cases h10 : n % 10 <;> simp_all

theorem daysInMonth_le_31 (y m : Nat) : daysInMonth y m ≤ 31 := by
  unfold daysInMonth
  split_ifs <;> simp

theorem fromIso_toIso (d : Date) (h : ValidDate d) :
    Date.fromIso d.toIso = some d := by
  obtain ⟨h1, h2, h3, h4, h5, h6⟩ := h
  have h6' : d.day ≤ 31 := le_trans h6 (daysInMonth_le_31 _ _)
  unfold Date.toIso Date.fromIso
  simp only [parseDigit_digitChar]
  simp only [and_self, if_true]
  have hy : 1000 * (d.year / 1000 % 10) + 100 * (d.year / 100 % 10) +
      10 * (d.year / 10 % 10) + d.year % 10 = d.year := by omega
  have hm : 10 * (d.month / 10 % 10) + d.month % 10 = d.month := by omega
  have hd : 10 * (d.day / 10 % 10) + d.day % 10 = d.day := by omega
  simp only [hy, hm, hd]
  rw [if_pos ⟨h1, h3, h4, h5, h6⟩]

/-! ## A JSON value model and the `to_dict` / `from_dict` serialization
(`src/models/horse_profile.py`, lines 71–149)

Python is dynamically typed: `from_dict` stores whatever values the input
dictionary holds and a type mismatch only surfaces later.  The embedding is
typed, so each field access is paired with the type the rest of the program
relies on; a mismatch is reported eagerly as a `TypeError`.  The claims
below only exercise inputs on which the two behaviours agree. -/

inductive JVal where
  | jnull
  | jbool (b : Bool)
  | jnum (q : Rat)
  | jstr (s : String)
  | jarr (elts : List JVal)
  | jobj (fields : List (String × JVal))
deriving Repr

/-- Map a fallible function over a list, propagating the first error —
the embedding of a Python `for` loop whose body may raise. -/
def exMap (f : α → Except String β) : List α → Except String (List β)
  | [] => .ok []
  | a :: l =>
    match f a with
    | .error e => .error e
    | .ok b =>
      match exMap f l with
      | .error e => .error e
      | .ok bs => .ok (b :: bs)

/-- Python dict lookup (keys are unique, first match). -/
def jGet (o : List (String × JVal)) (k : String) : Option JVal :=
  match o with
  | [] => none
  | (k', v) :: rest => if k' = k then some v else jGet rest k

/-- `data[k]`: raises `KeyError` when the key is absent. -/
def getItem (o : List (String × JVal)) (k : String) : Except String JVal :=
  match jGet o k with
  | some v => .ok v
  | none => .error ("KeyError: " ++ k)

/-- Expect a JSON string. -/
def asStr (v : JVal) : Except String String :=
  match v with
  | .jstr s => .ok s
  | _ => .error "TypeError: expected str"

/-- Expect a JSON number. -/
def asNum (v : JVal) : Except String Rat :=
  match v with
  | .jnum q => .ok q
  | _ => .error "TypeError: expected number"

/-- Expect a JSON number holding an integer (e.g. `duration_minutes`). -/
def asInt (v : JVal) : Except String Int :=
  match v with
  | .jnum q => if q.den = 1 then .ok q.num else .error "TypeError: expected int"
  | _ => .error "TypeError: expected int"

/-- `date.fromisoformat(value)`: `TypeError` unless the value is a string,
`ValueError` unless the string is a valid `YYYY-MM-DD` date. -/
def parseIsoDate (v : JVal) : Except String Date :=
  match v with
  | .jstr s =>
    match Date.fromIso s with
    | some d => .ok d
    | none => .error "ValueError: invalid isoformat string"
  | _ => .error "TypeError: fromisoformat argument must be str"

/-- Python iteration over a JSON-decoded value: lists yield their elements,
strings their characters, dicts their keys; other values raise `TypeError`. -/
def pyIterate (v : JVal) : Except String (List JVal) :=
  match v with
  | .jarr l => .ok l
  | .jstr s => .ok (s.data.map (fun c => JVal.jstr (String.mk [c])))
  | .jobj l => .ok (l.map (fun kv => JVal.jstr kv.1))
  | _ => .error "TypeError: object is not iterable"

/-- `data.get('lineage', {})` and its use as a `Dict[str, str]`. -/
def parseLineage (v? : Option JVal) : Except String (List (String × String)) :=
  match v? with
  | none => .ok []
  | some (.jobj l) =>
    exMap (fun kv =>
      match kv.2 with
      | JVal.jstr s => .ok (kv.1, s)
      | _ => .error "TypeError: lineage value") l
  | some _ => .error "TypeError: lineage"

/-- `data.get('dietary_restrictions', [])` as a `List[str]`. -/
def parseDietary (v? : Option JVal) : Except String (List String) :=
  match v? with
  | none => .ok []
  | some (.jarr l) => exMap asStr l
  | some _ => .error "TypeError: dietary_restrictions"

/-- `record.get('notes')`: absent or `null` become `None`. -/
def parseNotes (v? : Option JVal) : Except String (Option String) :=
  match v? with
  | none => .ok none
  | some .jnull => .ok none
  | some (.jstr s) => .ok (some s)
  | some _ => .error "TypeError: notes"

/-- `if 'k' in data: for record in data['k']: ...` — the loop over an
optional history key; an absent key leaves the default empty list. -/
def parseHistory (v? : Option JVal) (f : JVal → Except String α) :
    Except String (List α) :=
  match v? with
  | none => .ok []
  | some v =>
    match pyIterate v with
    | .error e => .error e
    | .ok l => exMap f l

/-- `MedicalRecord` as emitted by `HorseProfile.to_dict`. -/
def MedicalRecord.toJ (r : MedicalRecord) : JVal :=
  .jobj [("date", .jstr r.date.toIso),
         ("condition", .jstr r.condition),
         ("treatment", .jstr r.treatment),
         ("notes", match r.notes with | some s => .jstr s | none => .jnull)]

/-- `TrainingSession` as emitted by `HorseProfile.to_dict`. -/
def TrainingSession.toJ (s : TrainingSession) : JVal :=
  .jobj [("date", .jstr s.date.toIso),
         ("activity_type", .jstr s.activity_type),
         ("duration_minutes", .jnum (s.duration_minutes : Rat)),
         ("intensity", .jstr s.intensity),
         ("performance_rating", .jnum (s.performance_rating : Rat)),
         ("notes", match s.notes with | some t => .jstr t | none => .jnull)]

/-- The medical-record constructor call inside `from_dict`'s history loop. -/
def MedicalRecord.fromJ (v : JVal) : Except String MedicalRecord :=
  match v with
  | .jobj o => do
    let d ← getItem o "date" >>= parseIsoDate
    let c ← getItem o "condition" >>= asStr
    let t ← getItem o "treatment" >>= asStr
    let n ← parseNotes (jGet o "notes")
    .ok ⟨d, c, t, n⟩
  | _ => .error "TypeError: record is not a mapping"

/-- The training-session constructor call inside `from_dict`'s history loop. -/
def TrainingSession.fromJ (v : JVal) : Except String TrainingSession :=
  match v with
  | .jobj o => do
    let d ← getItem o "date" >>= parseIsoDate
    let a ← getItem o "activity_type" >>= asStr
    let du ← getItem o "duration_minutes" >>= asInt
    let i ← getItem o "intensity" >>= asStr
    let p ← getItem o "performance_rating" >>= asInt
    let n ← parseNotes (jGet o "notes")
    .ok ⟨d, a, du, i, p, n⟩
  | _ => .error "TypeError: session is not a mapping"

/-- `HorseProfile.to_dict` (lines 71–105): all fields, dates in ISO format,
plus the derived `age`. -/
def HorseProfile.toDict (today : Date) (p : HorseProfile) : JVal :=
  .jobj [("id", .jstr p.id),
         ("name", .jstr p.name),
         ("breed", .jstr p.breed),
         ("birth_date", .jstr p.birth_date.toIso),
         ("age", .jnum (p.age today : Rat)),
         ("sex", .jstr p.sex),
         ("color", .jstr p.color),
         ("height_hands", .jnum p.height_hands),
         ("weight_kg", .jnum p.weight_kg),
         ("lineage", .jobj (p.lineage.map (fun kv => (kv.1, JVal.jstr kv.2)))),
         ("dietary_restrictions", .jarr (p.dietary_restrictions.map JVal.jstr)),
         ("medical_history", .jarr (p.medical_history.map MedicalRecord.toJ)),
         ("training_history", .jarr (p.training_history.map TrainingSession.toJ))]

/-- `HorseProfile.from_dict` (lines 107–149).  `birth_date` is converted
first (line 111, so a missing `birth_date` is the first `KeyError`), then the
constructor's keyword arguments are evaluated left to right, then the two
optional histories are appended. -/
def HorseProfile.fromDict (v : JVal) : Except String HorseProfile :=
  match v with
  | .jobj o => do
    let bd ← getItem o "birth_date" >>= parseIsoDate
    let pid ← getItem o "id" >>= asStr
    let nm ← getItem o "name" >>= asStr
    let br ← getItem o "breed" >>= asStr
    let sx ← getItem o "sex" >>= asStr
    let co ← getItem o "color" >>= asStr
    let hh ← getItem o "height_hands" >>= asNum
    let wk ← getItem o "weight_kg" >>= asNum
    let lin ← parseLineage (jGet o "lineage")
    let di ← parseDietary (jGet o "dietary_restrictions")
    let mh ← parseHistory (jGet o "medical_history") MedicalRecord.fromJ
    let th ← parseHistory (jGet o "training_history") TrainingSession.fromJ
    .ok ⟨pid, nm, br, bd, sx, co, hh, wk, lin, di, mh, th⟩
  | _ => .error "TypeError: from_dict expects a mapping"

/-! ## Claim C7 — `to_dict` / `from_dict` round trip -/

theorem exMap_map_ok (f' : α → β) (g : β → Except String α) (l : List α)
    (h : ∀ a ∈ l, g (f' a) = .ok a) : exMap g (l.map f') = .ok l := by
  induction l with
  | nil => rfl
  | cons a l ih =>
    have ha := h a (by simp)
    have hl := ih (fun x hx => h x (by simp [hx]))
    simp only [List.map_cons, exMap, ha, hl]

theorem parseIsoDate_toIso (d : Date) (h : ValidDate d) :
    parseIsoDate (.jstr d.toIso) = .ok d := by
  simp only [parseIsoDate, fromIso_toIso d h]

theorem medicalRecord_fromJ_roundtrip (r : MedicalRecord) (h : ValidDate r.date) :
    MedicalRecord.fromJ r.toJ = .ok r := by
  rcases r with ⟨d, c, t, n⟩
  cases n <;>
    simp [MedicalRecord.toJ, MedicalRecord.fromJ, getItem, jGet,
      parseIsoDate_toIso d h, asStr, parseNotes, bind, Except.bind]

theorem trainingSession_fromJ_roundtrip (s : TrainingSession) (h : ValidDate s.date) :
    TrainingSession.fromJ s.toJ = .ok s := by
  rcases s with ⟨d, a, du, i, p, n⟩
  cases n <;>
    simp [TrainingSession.toJ, TrainingSession.fromJ, getItem, jGet,
      parseIsoDate_toIso d h, asStr, asInt, parseNotes, bind, Except.bind]

theorem parseLineage_roundtrip (l : List (String × String)) :
    parseLineage (some (.jobj (l.map (fun kv => (kv.1, JVal.jstr kv.2))))) =
      .ok l := by
  unfold parseLineage
  exact exMap_map_ok _ _ l (fun a _ => rfl)

theorem parseDietary_roundtrip (l : List String) :
    parseDietary (some (.jarr (l.map JVal.jstr))) = .ok l := by
  unfold parseDietary
  exact exMap_map_ok _ _ l (fun a _ => rfl)

theorem parseHistory_roundtrip (f' : α → JVal) (g : JVal → Except String α)
    (l : List α) (h : ∀ a ∈ l, g (f' a) = .ok a) :
    parseHistory (some (.jarr (l.map f'))) g = .ok l := by
  unfold parseHistory pyIterate
  exact exMap_map_ok f' g l h

/-- C7: `from_dict` after `to_dict` reproduces the profile field for field,
nested history lists included, provided every stored date is a valid
calendar date (as any Python `date` object is by construction). -/
theorem C7_roundtrip (today : Date) (p : HorseProfile)
    (hb : ValidDate p.birth_date)
    (hm : ∀ r ∈ p.medical_history, ValidDate r.date)
    (ht : ∀ s ∈ p.training_history, ValidDate s.date) :
    HorseProfile.fromDict (p.toDict today) = .ok p := by
  rcases p with ⟨pid, nm, br, bd, sx, co, hh, wk, lin, di, mh, th⟩
  have hmh : parseHistory (some (.jarr (mh.map MedicalRecord.toJ)))
      MedicalRecord.fromJ = .ok mh :=
    parseHistory_roundtrip _ _ mh (fun r hr => medicalRecord_fromJ_roundtrip r (hm r hr))
  have hth : parseHistory (some (.jarr (th.map TrainingSession.toJ)))
      TrainingSession.fromJ = .ok th :=
    parseHistory_roundtrip _ _ th (fun s hs => trainingSession_fromJ_roundtrip s (ht s hs))
  simp [HorseProfile.toDict, HorseProfile.fromDict, getItem, jGet,
    parseIsoDate_toIso bd hb, asStr, asNum, parseLineage_roundtrip,
    parseDietary_roundtrip, hmh, hth, bind, Except.bind]

/-- Concrete profile for the C7 witness. -/
def horseC7 : HorseProfile :=
  { id := "H001", name := "Thunder", breed := "Thoroughbred",
    birth_date := ⟨2015, 5, 12⟩, sex := "male", color := "bay",
    height_hands := 16, weight_kg := 550,
    lineage := [("sire", "Storm Runner"), ("dam", "Lightning Dash")],
    dietary_restrictions := ["high sugar"],
    medical_history := [⟨⟨2023, 1, 5⟩, "colic", "rest", some "mild"⟩],
    training_history :=
      [⟨⟨2023, 1, 15⟩, "trot", 30, "medium", 7, none⟩,
       ⟨⟨2023, 1, 25⟩, "gallop", 15, "high", 8, some "fast"⟩] }

/-- Witness for C7 at a concrete profile. -/
theorem C7_roundtrip_witness :
    HorseProfile.fromDict (horseC7.toDict ⟨2024, 5, 12⟩) = .ok horseC7 :=
  C7_roundtrip ⟨2024, 5, 12⟩ horseC7 (by decide) (by decide) (by decide)

/-! ## Claim C10 — `from_dict` with omitted optional keys -/

/-- C10: when the scalar fields are present and well-formed, `from_dict`
succeeds for any combination of present/absent optional keys (their parses
given as hypotheses), and every omitted optional key yields the
corresponding empty collection. -/
theorem C10_fromDict_optional_defaults
    (o : List (String × JVal)) (pid nm br sx co : String) (bdv : JVal)
    (bd : Date) (hh wk : Rat) (lin : List (String × String))
    (di : List String) (mh : List MedicalRecord) (th : List TrainingSession)
    (hbv : jGet o "birth_date" = some bdv)
    (hbp : parseIsoDate bdv = .ok bd)
    (h2 : jGet o "id" = some (.jstr pid))
    (h3 : jGet o "name" = some (.jstr nm))
    (h4 : jGet o "breed" = some (.jstr br))
    (h5 : jGet o "sex" = some (.jstr sx))
    (h6 : jGet o "color" = some (.jstr co))
    (h7 : jGet o "height_hands" = some (.jnum hh))
    (h8 : jGet o "weight_kg" = some (.jnum wk))
    (hl : parseLineage (jGet o "lineage") = .ok lin)
    (hd : parseDietary (jGet o "dietary_restrictions") = .ok di)
    (hm : parseHistory (jGet o "medical_history") MedicalRecord.fromJ = .ok mh)
    (ht : parseHistory (jGet o "training_history") TrainingSession.fromJ = .ok th) :
    HorseProfile.fromDict (.jobj o) =
      .ok ⟨pid, nm, br, bd, sx, co, hh, wk, lin, di, mh, th⟩ ∧
    (jGet o "lineage" = none → lin = []) ∧
    (jGet o "dietary_restrictions" = none → di = []) ∧
    (jGet o "medical_history" = none → mh = []) ∧
    (jGet o "training_history" = none → th = []) := by
  refine ⟨?_, ?_, ?_, ?_, ?_⟩
  · simp [HorseProfile.fromDict, getItem, hbv, hbp, h2, h3, h4, h5, h6, h7, h8,
      hl, hd, hm, ht, asStr, asNum, bind, Except.bind]
  · intro h
    rw [h] at hl
    simpa [parseLineage] using hl
  · intro h
    rw [h] at hd
    simpa [parseDietary] using hd
  · intro h
    rw [h] at hm
    simpa [parseHistory] using hm
  · intro h
    rw [h] at ht
    simpa [parseHistory] using ht

/-- The C10 witness dictionary: all scalar fields, no optional keys. -/
def objC10 : List (String × JVal) :=
  [("id", .jstr "H010"), ("name", .jstr "Misty"), ("breed", .jstr "Arabian"),
   ("birth_date", .jstr "2016-03-23"), ("sex", .jstr "female"),
   ("color", .jstr "gray"), ("height_hands", .jnum 15),
   ("weight_kg", .jnum 450)]

/-- Witness for C10: omitting every optional key yields a profile whose
collections are all empty, with no error. -/
theorem C10_fromDict_optional_defaults_witness :
    HorseProfile.fromDict (.jobj objC10) =
      .ok ⟨"H010", "Misty", "Arabian", ⟨2016, 3, 23⟩, "female", "gray",
           15, 450, [], [], [], []⟩ ∧
    (jGet objC10 "lineage" = none → ([] : List (String × String)) = []) ∧
    (jGet objC10 "dietary_restrictions" = none → ([] : List String) = []) ∧
    (jGet objC10 "medical_history" = none → ([] : List MedicalRecord) = []) ∧
    (jGet objC10 "training_history" = none → ([] : List TrainingSession) = []) :=
  C10_fromDict_optional_defaults objC10 "H010" "Misty" "Arabian" "female" "gray"
    (.jstr "2016-03-23") ⟨2016, 3, 23⟩ 15 450 [] [] [] []
    (by rfl) (by rfl) (by rfl) (by rfl) (by rfl) (by rfl) (by rfl) (by rfl)
    (by rfl) (by rfl) (by rfl) (by rfl) (by rfl)

/-! ## Claim C4 — `DataLoader.load_horse_profiles` / `load_training_data`
(`src/data/data_loader.py`, lines 37–89)

The file system is a map from paths to file states.  `missing` models
`FileNotFoundError` on `open`, `notJson` a file whose contents fail
`json.load` (`json.JSONDecodeError`); `jsonFile v` a file that decodes to
the JSON value `v`.  Only those two exception classes are caught by the
loaders; any error arising from the decoded value itself propagates. -/

inductive FileState where
  | missing
  | notJson
  | jsonFile (v : JVal)

/-- A file system snapshot. -/
def FS := String → FileState

/-- `os.path.join(self.data_dir, filename)` for the usual dir/file case. -/
def joinPath (dataDir filename : String) : String :=
  dataDir ++ "/" ++ filename

/-- `DataLoader.load_horse_profiles`: catches only `FileNotFoundError` and
`json.JSONDecodeError` (returning `[]`); `HorseProfile.from_dict` errors on
the decoded elements propagate to the caller. -/
def loadHorseProfiles (fs : FS) (dataDir filename : String) :
    Except String (List HorseProfile) :=
  match fs (joinPath dataDir filename) with
  | .missing => .ok []
  | .notJson => .ok []
  | .jsonFile v =>
    match pyIterate v with
    | .error e => .error e
    | .ok l => exMap HorseProfile.fromDict l

/-- `len(data)` on a decoded JSON value (used by the loader's log line);
numbers, booleans and null raise `TypeError`. -/
def jsonLen (v : JVal) : Except String Nat :=
  match v with
  | .jarr l => .ok l.length
  | .jobj l => .ok l.length
  | .jstr s => .ok s.length
  | _ => .error "TypeError: object has no len"

/-- `DataLoader.load_training_data`: returns the decoded JSON value as-is
after the `len(data)` log line; only missing files and JSON syntax errors
are turned into `[]`. -/
def loadTrainingData (fs : FS) (dataDir filename : String) :
    Except String JVal :=
  match fs (joinPath dataDir filename) with
  | .missing => .ok (.jarr [])
  | .notJson => .ok (.jarr [])
  | .jsonFile v =>
    match jsonLen v with
    | .error e => .error e
    | .ok _ => .ok v

/-- A file system whose profile file holds valid JSON that is not a list of
well-formed profiles: `[{}]`. -/
def fsC4bad : FS := fun _ => .jsonFile (.jarr [.jobj []])

/-- A file system whose training file holds the valid JSON document `5`. -/
def fsC4num : FS := fun _ => .jsonFile (.jnum 5)

/-- C4 counterexample: both loaders can raise to the caller.  A profile file
containing the valid JSON `[{}]` makes `load_horse_profiles` raise
`KeyError('birth_date')`, and a training file containing the valid JSON `5`
makes `load_training_data` raise `TypeError` at its `len(data)` log line —
so "never raises an exception to the caller" is false. -/
theorem C4_counterexample :
    loadHorseProfiles fsC4bad "data" "horse_profiles.json" =
      .error "KeyError: birth_date" ∧
    loadTrainingData fsC4num "data" "training_data.json" =
      .error "TypeError: object has no len" := by
  constructor <;> rfl

/-- C4 (amended): a missing file yields an empty collection and a file that
fails JSON decoding is treated as empty, for both loaders; and when the
decoded value is a JSON array whose elements all convert, the profile loader
returns the conversions and the training-data loader returns the array
as-is.  But a file whose contents are valid JSON of the wrong shape can
raise (see the counterexample), so the loaders are exception-free only up
to JSON decoding. -/
theorem C4_loaders_amended (fs : FS) (dataDir filename : String) :
    (fs (joinPath dataDir filename) = .missing →
      loadHorseProfiles fs dataDir filename = .ok [] ∧
      loadTrainingData fs dataDir filename = .ok (.jarr [])) ∧
    (fs (joinPath dataDir filename) = .notJson →
      loadHorseProfiles fs dataDir filename = .ok [] ∧
      loadTrainingData fs dataDir filename = .ok (.jarr [])) ∧
    (∀ l ps, fs (joinPath dataDir filename) = .jsonFile (.jarr l) →
      exMap HorseProfile.fromDict l = .ok ps →
      loadHorseProfiles fs dataDir filename = .ok ps) ∧
    (∀ l, fs (joinPath dataDir filename) = .jsonFile (.jarr l) →
      loadTrainingData fs dataDir filename = .ok (.jarr l)) := by
  refine ⟨fun h => ?_, fun h => ?_, fun l ps h hex => ?_, fun l h => ?_⟩ <;>
    simp [loadHorseProfiles, loadTrainingData, h, pyIterate, jsonLen]
  exact hex

/-- File systems for the C4 witness. -/
def fsC4missing : FS := fun _ => .missing

def fsC4corrupt : FS := fun _ => .notJson

def fsC4good : FS := fun _ => .jsonFile (.jarr [.jobj objC10])

/-- Witness for C4 (amended) at concrete file systems. -/
theorem C4_loaders_amended_witness :
    loadHorseProfiles fsC4missing "data" "horse_profiles.json" = .ok [] ∧
    loadTrainingData fsC4corrupt "data" "training_data.json" = .ok (.jarr []) ∧
    loadHorseProfiles fsC4good "data" "horse_profiles.json" =
      .ok [⟨"H010", "Misty", "Arabian", ⟨2016, 3, 23⟩, "female", "gray",
            15, 450, [], [], [], []⟩] :=
  ⟨((C4_loaders_amended fsC4missing "data" "horse_profiles.json").1 rfl).1,
   ((C4_loaders_amended fsC4corrupt "data" "training_data.json").2.1 rfl).2,
   (C4_loaders_amended fsC4good "data" "horse_profiles.json").2.2.1
     [.jobj objC10] _ rfl (by rfl)⟩

/-! ## `TrainingModel` (`src/models/training_model.py`)

The scikit-learn estimators (`ColumnTransformer`, `RandomForestClassifier`,
`GradientBoostingRegressor`) and `train_test_split` are external library
code; they are modelled as an explicit record of functions (`SKLearn`) over
which all theorems are universally quantified, while everything the
repository itself computes (feature extraction, merging, filtering, sorting,
thresholds) is translated concretely. -/

/-- The configuration the `TrainingModel` reads, as a typed projection of
the config dict: each field carries the `.get(key, default)` default used
at the corresponding call site. -/
structure TMConfig where
  modelType : String := "random_forest"
  testSize : Rat := 1/5
  includeMedical : Bool := true
  includeDiet : Bool := true
  includeLineage : Bool := true
  maxPerHorse : Nat := 5
  minConfidence : Rat := 1/10

/-- One row of the `_extract_features` DataFrame.  The three flag columns
are only emitted when the corresponding feature toggle is on
(`has_lineage_info` additionally only when the horse has lineage entries);
`none` models the column being absent for the row, which `df.fillna(0)`
turns into 0. -/
structure FeatRow where
  horse_id : String
  age : Int
  height_hands : Rat
  weight_kg : Rat
  breed : String
  sex : String
  recent_training_count : Nat
  avg_training_duration : Rat
  avg_performance_rating : Rat
  training_variety : Nat
  low_intensity_count : Nat
  medium_intensity_count : Nat
  high_intensity_count : Nat
  has_medical_conditions : Option Int
  has_dietary_restrictions : Option Int
  has_lineage_info : Option Int

/-- `np.mean` over a list of rationals (only called on nonempty lists). -/
def listMean (l : List Rat) : Rat :=
  if l.length = 0 then 0 else l.sum / l.length

/-- The per-horse feature extraction of `TrainingModel._extract_features`
(lines 51–127). -/
def extractFeatureRow (cfg : TMConfig) (today : Date) (horse : HorseProfile) :
    FeatRow :=
  let recent := horse.recentTraining today
  { horse_id := horse.id,
    age := horse.age today,
    height_hands := horse.height_hands,
    weight_kg := horse.weight_kg,
    breed := horse.breed,
    sex := horse.sex,
    recent_training_count := recent.length,
    avg_training_duration :=
      if recent.isEmpty then 0
      else listMean (recent.map (fun s => (s.duration_minutes : Rat))),
    avg_performance_rating :=
      if recent.isEmpty then 0
      else listMean (recent.map (fun s => (s.performance_rating : Rat))),
    training_variety :=
      if recent.isEmpty then 0
      else ((recent.map (fun s => s.activity_type)).eraseDups).length,
    low_intensity_count := (recent.filter (fun s => s.intensity = "low")).length,
    medium_intensity_count := (recent.filter (fun s => s.intensity = "medium")).length,
    high_intensity_count := (recent.filter (fun s => s.intensity = "high")).length,
    has_medical_conditions :=
      if cfg.includeMedical then
        some (if horse.hasMedicalConditions today then 1 else 0)
      else none,
    has_dietary_restrictions :=
      if cfg.includeDiet then
        some (if horse.dietary_restrictions.length > 0 then 1 else 0)
      else none,
    has_lineage_info :=
      if cfg.includeLineage ∧ ¬ horse.lineage.isEmpty then some 1 else none }

/-- `_extract_features` over a batch of profiles. -/
def extractFeatures (cfg : TMConfig) (today : Date)
    (profiles : List HorseProfile) : List FeatRow :=
  profiles.map (extractFeatureRow cfg today)

/-- A (possibly fitted) `ColumnTransformer` feature pipeline: its observable
behaviour is its per-row transform. -/
structure Pipeline where
  transformRow : FeatRow → List Rat

/-- A fitted classifier: its class labels (`classes_`) and its per-row
`predict_proba`. -/
structure Classifier where
  classes : List String
  predictProba : List Rat → List Rat

/-- A fitted regressor. -/
structure Regressor where
  predict : List Rat → Rat

/-- The mutable state of a `TrainingModel` instance: the three fields set
by `__init__` to `None` and assigned by `train`. -/
structure ModelState where
  model : Option Classifier := none
  featurePipeline : Option Pipeline := none
  performancePredictor : Option Regressor := none

/-- Insert an element into a descending-sorted list, before the first
element it is ≥ on the key — the earlier element wins ties, matching
Python's stable sort with `reverse=True`. -/
def insertDesc (x : String × Rat) : List (String × Rat) → List (String × Rat)
  | [] => [x]
  | y :: ys => if y.2 ≤ x.2 then x :: y :: ys else y :: insertDesc x ys

/-- Stable descending-by-probability sort. -/
def sortDesc : List (String × Rat) → List (String × Rat)
  | [] => []
  | x :: xs => insertDesc x (sortDesc xs)

theorem mem_insertDesc (x z : String × Rat) (l : List (String × Rat)) :
    z ∈ insertDesc x l ↔ z = x ∨ z ∈ l := by
  induction l with
  | nil => simp [insertDesc]
  | cons y ys ih =>
    simp only [insertDesc]
    by_cases h : y.2 ≤ x.2
    · rw [if_pos h]
      simp [List.mem_cons]
    · rw [if_neg h]
      simp only [List.mem_cons, ih]
      tauto

theorem pairwise_insertDesc (x : String × Rat) (l : List (String × Rat))
    (hl : List.Pairwise (fun a b => b.2 ≤ a.2) l) :
    List.Pairwise (fun a b => b.2 ≤ a.2) (insertDesc x l) := by
  induction l with
  | nil => simp [insertDesc]
  | cons y ys ih =>
    rcases List.pairwise_cons.mp hl with ⟨hy, hys⟩
    simp only [insertDesc]
    by_cases h : y.2 ≤ x.2
    · rw [if_pos h]
      refine List.pairwise_cons.mpr ⟨?_, hl⟩
      intro z hz
      rcases List.mem_cons.mp hz with hz | hz
      · subst hz
        exact h
      · exact le_trans (hy z hz) h
    · rw [if_neg h]
      refine List.pairwise_cons.mpr ⟨?_, ih hys⟩
      intro z hz
      rcases (mem_insertDesc x z ys).mp hz with hz | hz
      · subst hz
        exact le_of_not_le h
      · exact hy z hz

theorem pairwise_sortDesc (l : List (String × Rat)) :
    List.Pairwise (fun a b => b.2 ≤ a.2) (sortDesc l) := by
  induction l with
  | nil => simp [sortDesc]
  | cons x xs ih => exact pairwise_insertDesc x (sortDesc xs) ih

theorem filter_insertDesc (x : String × Rat) (l : List (String × Rat))
    (q : Rat) :
    (insertDesc x l).filter (fun z => z.2 = q) =
      if x.2 = q then x :: l.filter (fun z => z.2 = q)
      else l.filter (fun z => z.2 = q) := by
  induction l with
  | nil =>
    by_cases hx : x.2 = q <;> simp [insertDesc, hx]
  | cons y ys ih =>
    simp only [insertDesc]
    by_cases h : y.2 ≤ x.2
    · rw [if_pos h]
      by_cases hx : x.2 = q <;> by_cases hy : y.2 = q <;>
        simp [List.filter_cons, hx, hy]
    · rw [if_neg h]
      have hlt : x.2 < y.2 := lt_of_not_le h
      by_cases hy : y.2 = q
      · have hx : ¬ x.2 = q := by
          intro hx
          rw [hx, hy] at hlt
          exact lt_irrefl q hlt
        simp [List.filter_cons, hy, hx, ih]
      · by_cases hx : x.2 = q <;> simp [List.filter_cons, hy, hx, ih]

theorem filter_sortDesc (l : List (String × Rat)) (q : Rat) :
    (sortDesc l).filter (fun z => z.2 = q) = l.filter (fun z => z.2 = q) := by
  induction l with
  | nil => rfl
  | cons x xs ih =>
    by_cases hx : x.2 = q <;>
      simp [sortDesc, filter_insertDesc, List.filter_cons, hx, ih]

/-! ## Rounding to three decimals and its monotonicity -/

/-- Python `round(float(confidence), 3)` idealised on rationals. -/
def roundTo3 (q : Rat) : Rat := (pyRound (q * 1000) : Rat) / 1000

theorem pyRound_mono {q q' : Rat} (h : q ≤ q') : pyRound q ≤ pyRound q' := by
  have hf : ⌊q⌋ ≤ ⌊q'⌋ := Int.floor_le_floor h
  rcases lt_or_eq_of_le hf with hlt | heq
  · simp only [pyRound]
    split_ifs <;> omega
  · simp only [pyRound]
    rw [heq]
    have hrr : q - ((⌊q'⌋ : Int) : Rat) ≤ q' - ((⌊q'⌋ : Int) : Rat) :=
      sub_le_sub_right h _
    split_ifs <;> first | omega | linarith

theorem roundTo3_mono {q q' : Rat} (h : q ≤ q') : roundTo3 q ≤ roundTo3 q' := by
  unfold roundTo3
  have h1000 : q * 1000 ≤ q' * 1000 := by linarith
  have hle := pyRound_mono h1000
  have hcast : ((pyRound (q * 1000) : Int) : Rat) ≤
      ((pyRound (q' * 1000) : Int) : Rat) := by
    exact_mod_cast hle
  linarith

/-! ## Claim C5 — `generate_recommendations`
(`src/models/training_model.py`, lines 278–346) -/

/-- A generated recommendation record. -/
structure Rec where
  horse_id : String
  horse_name : String
  activity_type : String
  confidence : Rat
  recommended_date : String
  recommended_duration : Int
  recommended_intensity : String
  notes : String

/-- Modelled from the spec: the tail of `_generate_recommendation_notes` is
missing from the source file (it ends mid-function after the age-specific
clauses at lines 412–423); per the spec, notes are "assembled from
applicable situational clauses (age bracket, medical condition)" and their
exact wording is not a contract.  The age clauses below are the ones visible
in the source; the medical clause follows the spec's words. -/
def generateRecommendationNotes (today : Date) (horse : HorseProfile)
    (_activity : String) : String :=
  String.intercalate " "
    ((if horse.age today < 3 then
        ["Young horse - keep sessions short and vary activities to maintain interest."]
      else if horse.age today > 15 then
        ["Senior horse - monitor closely for signs of fatigue and allow extra warm-up time."]
      else []) ++
     (if horse.hasMedicalConditions today then
        ["Has medical conditions - adjust training accordingly."]
      else []))

/-- `{horse.id: horse for horse in horse_profiles}[hid]`: in a Python dict
comprehension the last profile with a given id wins. -/
def profileMapLookup (profiles : List HorseProfile) (hid : String) :
    Option HorseProfile :=
  profiles.reverse.find? (fun p => p.id = hid)

/-- The per-activity list kept for one horse: scores sorted stably
descending by probability, truncated to `max_per_horse`, then filtered by
`min_confidence`. -/
def keptScores (cfg : TMConfig) (classes : List String) (probs : List Rat) :
    List (String × Rat) :=
  ((sortDesc (classes.zip probs)).take cfg.maxPerHorse).filter
    (fun x => cfg.minConfidence ≤ x.2)

/-- The recommendation dictionary built for one kept (activity, confidence)
pair. -/
def mkRecommendation (today : Date) (horse : HorseProfile) (hid : String)
    (activity : String) (confidence : Rat) : Rec :=
  { horse_id := hid,
    horse_name := horse.name,
    activity_type := activity,
    confidence := roundTo3 confidence,
    recommended_date := today.toIso,
    recommended_duration := recommendDuration today horse activity,
    recommended_intensity := recommendIntensity today horse activity,
    notes := generateRecommendationNotes today horse activity }

/-- The block of recommendations generated for one feature row. -/
def horseBlock (today : Date) (cfg : TMConfig) (horse : HorseProfile)
    (hid : String) (classes : List String) (probs : List Rat) : List Rec :=
  (keptScores cfg classes probs).map
    (fun ac => mkRecommendation today horse hid ac.1 ac.2)

/-- `TrainingModel.generate_recommendations`: raises unless both `model`
and `feature_pipeline` are set; otherwise re-extracts features, transforms
them through the stored pipeline, asks the classifier for per-class
probabilities, and concatenates each horse's block.  `X['horse_id']` at
line 297 raises `KeyError('horse_id')` when the feature frame has no
columns, which happens exactly when the profile list is empty
(`pd.DataFrame([])`). -/
def generateRecommendations (today : Date) (cfg : TMConfig)
    (st : ModelState) (profiles : List HorseProfile) :
    Except String (List Rec) :=
  match st.model, st.featurePipeline with
  | some clf, some pipe =>
    if profiles.isEmpty then .error "KeyError: horse_id"
    else
    let rows := extractFeatures cfg today profiles
    match exMap (fun row =>
        match profileMapLookup profiles row.horse_id with
        | none => .error ("KeyError: " ++ row.horse_id)
        | some horse =>
          .ok (horseBlock today cfg horse row.horse_id clf.classes
            (clf.predictProba (pipe.transformRow row)))) rows with
    | .error e => .error e
    | .ok blocks => .ok blocks.flatten
  | _, _ => .error "Model has not been trained yet"

theorem exMap_ok_of_forall (f : α → Except String β) (g : α → β)
    (l : List α) (h : ∀ a ∈ l, f a = .ok (g a)) :
    exMap f l = .ok (l.map g) := by
  induction l with
  | nil => rfl
  | cons a l ih =>
    have ha := h a (by simp)
    have hl := ih (fun x hx => h x (by simp [hx]))
    simp only [List.map_cons, exMap, ha, hl]

theorem profileMapLookup_isSome (profiles : List HorseProfile)
    (p : HorseProfile) (hp : p ∈ profiles) :
    ∃ horse, profileMapLookup profiles p.id = some horse := by
  have hmem : p ∈ profiles.reverse := List.mem_reverse.mpr hp
  have : (profiles.reverse.find? (fun x => x.id = p.id)).isSome := by
    rw [List.find?_isSome]
    exact ⟨p, hmem, by simp⟩
  rcases Option.isSome_iff_exists.mp this with ⟨horse, hh⟩
  exact ⟨horse, hh⟩

/-- C5 (amended): `generate_recommendations` on an untrained state fails
with the not-ready `ValueError`; on a trained state with a NONEMPTY profile
list it returns one block per input profile, where each block is obtained
from the classifier's per-class probabilities by a stable descending sort,
truncation to `max_per_horse`, and the `min_confidence` filter — so each
block has at most `max_per_horse` entries, every kept entry's probability
is ≥ `min_confidence` (its stored confidence being that probability rounded
to 3 decimals), blocks are sorted descending by confidence, and probability
ties keep the classifier's native class order (the filtered tie runs are
sublists of `classes.zip probs`); on a trained state with an EMPTY profile
list the call does not return but raises `KeyError('horse_id')` at the
column access on the column-less feature frame (line 297). -/
theorem C5_generate_recommendations (today : Date) (cfg : TMConfig)
    (profiles : List HorseProfile) :
    (∀ st : ModelState, st.model = none ∨ st.featurePipeline = none →
      generateRecommendations today cfg st profiles =
        .error "Model has not been trained yet") ∧
    (∀ (clf : Classifier) (pipe : Pipeline) (reg : Option Regressor),
      (profiles = [] →
        generateRecommendations today cfg ⟨some clf, some pipe, reg⟩ profiles
          = .error "KeyError: horse_id") ∧
      (profiles ≠ [] →
      ∃ blocks : List (List Rec),
        generateRecommendations today cfg ⟨some clf, some pipe, reg⟩ profiles
          = .ok blocks.flatten ∧
        blocks.length = profiles.length ∧
        (∀ b ∈ blocks, ∃ horse hid probs,
          b = horseBlock today cfg horse hid clf.classes probs))) ∧
    (∀ (horse : HorseProfile) (hid : String) (classes : List String)
        (probs : List Rat),
      (horseBlock today cfg horse hid classes probs).length ≤
        cfg.maxPerHorse ∧
      (∀ x ∈ keptScores cfg classes probs, cfg.minConfidence ≤ x.2) ∧
      List.Pairwise (fun a b => b.2 ≤ a.2) (keptScores cfg classes probs) ∧
      (∀ q : Rat, List.Sublist
        ((keptScores cfg classes probs).filter (fun x => x.2 = q))
        ((classes.zip probs).filter (fun x => x.2 = q))) ∧
      (∀ r ∈ horseBlock today cfg horse hid classes probs,
        ∃ x ∈ keptScores cfg classes probs,
          cfg.minConfidence ≤ x.2 ∧ r.confidence = roundTo3 x.2) ∧
      List.Pairwise (fun a b => b.confidence ≤ a.confidence)
        (horseBlock today cfg horse hid classes probs)) := by
  refine ⟨?_, ?_, ?_⟩
  · intro st h
    rcases st with ⟨m, fp, pp⟩
    rcases h with h | h
    · subst h
      cases fp <;> rfl
    · subst h
      cases m <;> rfl
  · intro clf pipe reg
    constructor
    · intro hp
      subst hp
      rfl
    intro hp
    have hpe : ¬ (profiles.isEmpty = true) :=
      fun he => hp (List.isEmpty_iff.mp he)
    refine ⟨(extractFeatures cfg today profiles).map (fun row =>
      match profileMapLookup profiles row.horse_id with
      | some horse => horseBlock today cfg horse row.horse_id clf.classes
          (clf.predictProba (pipe.transformRow row))
      | none => []), ?_, ?_, ?_⟩
    · have hforall : ∀ row ∈ extractFeatures cfg today profiles,
          (fun row =>
            match profileMapLookup profiles row.horse_id with
            | none => Except.error ("KeyError: " ++ row.horse_id)
            | some horse =>
              Except.ok (horseBlock today cfg horse row.horse_id clf.classes
                (clf.predictProba (pipe.transformRow row)))) row =
          .ok (match profileMapLookup profiles row.horse_id with
            | some horse => horseBlock today cfg horse row.horse_id clf.classes
                (clf.predictProba (pipe.transformRow row))
            | none => []) := by
        intro row hrow
        rcases List.mem_map.mp hrow with ⟨p, hp, hrepr⟩
        subst hrepr
        have hid : (extractFeatureRow cfg today p).horse_id = p.id := rfl
        rcases profileMapLookup_isSome profiles p hp with ⟨horse, hh⟩
        simp only [hid, hh]
      have hex := exMap_ok_of_forall _ _ _ hforall
      simp only [generateRecommendations, if_neg hpe, hex]
    · simp [extractFeatures]
    · intro b hb
      rcases List.mem_map.mp hb with ⟨row, hrow, hrepr⟩
      rcases List.mem_map.mp hrow with ⟨p, hp, hrow'⟩
      rcases profileMapLookup_isSome profiles p hp with ⟨horse, hh⟩
      have hid : row.horse_id = p.id := by
        rw [← hrow']
        rfl
      refine ⟨horse, row.horse_id,
        clf.predictProba (pipe.transformRow row), ?_⟩
      rw [← hrepr, hid, hh]
  · intro horse hid classes probs
    have hkept_sub : List.Sublist (keptScores cfg classes probs)
        (sortDesc (classes.zip probs)) := by
      unfold keptScores
      exact List.Sublist.trans (List.filter_sublist _)
        (List.take_sublist _ _)
    refine ⟨?_, ?_, ?_, ?_, ?_, ?_⟩
    · unfold horseBlock
      rw [List.length_map]
      exact le_trans (List.length_filter_le _ _) (List.length_take_le _ _)
    · intro x hx
      unfold keptScores at hx
      rcases List.mem_filter.mp hx with ⟨_, hpred⟩
      exact of_decide_eq_true hpred
    · exact List.Pairwise.sublist hkept_sub (pairwise_sortDesc _)
    · intro q
      have h1 : List.Sublist
          ((keptScores cfg classes probs).filter (fun x => x.2 = q))
          ((sortDesc (classes.zip probs)).filter (fun x => x.2 = q)) :=
        List.Sublist.filter _ hkept_sub
      rw [filter_sortDesc] at h1
      exact h1
    · intro r hr
      unfold horseBlock at hr
      rcases List.mem_map.mp hr with ⟨x, hx, hrepr⟩
      refine ⟨x, hx, ?_, ?_⟩
      · unfold keptScores at hx
        rcases List.mem_filter.mp hx with ⟨_, hpred⟩
        exact of_decide_eq_true hpred
      · rw [← hrepr]
        rfl
    · unfold horseBlock
      rw [List.pairwise_map]
      refine List.Pairwise.imp ?_
        (List.Pairwise.sublist hkept_sub (pairwise_sortDesc _))
      intro a b hab
      exact roundTo3_mono hab

/-- A concrete trained model state: one class, constant probability 1. -/
def stC5 : ModelState :=
  ⟨some ⟨["trot"], fun _ => [1]⟩, some ⟨fun _ => []⟩, none⟩

/-- C5 counterexample: on a trained state, calling
`generate_recommendations` with an EMPTY profile list does not return a
(vacuously fine) empty recommendation list — it raises
`KeyError('horse_id')`, because `pd.DataFrame([])` built from the empty
feature list has no columns at all, so the `X['horse_id']` access at line
297 fails.  This falsifies the claim's "the same call returns ..." for the
empty input. -/
theorem C5_counterexample :
    generateRecommendations ⟨2026, 10, 12⟩ {} stC5 [] =
      .error "KeyError: horse_id" := by
  rfl

/-- A concrete profile for exercising the trained branch of C5. -/
def horseC5 : HorseProfile :=
  { id := "H501", name := "Willow", breed := "Arabian",
    birth_date := ⟨2017, 9, 3⟩, sex := "female", color := "gray",
    height_hands := 15, weight_kg := 440 }

/-- Witness for C5 (amended) at a concrete untrained state, a trained
state with the empty profile list, and a trained state with one profile. -/
theorem C5_generate_recommendations_witness :
    (generateRecommendations ⟨2026, 10, 12⟩ {} ⟨none, none, none⟩
        [horseC5] = .error "Model has not been trained yet") ∧
    (∃ blocks : List (List Rec),
      generateRecommendations ⟨2026, 10, 12⟩ {} stC5 [horseC5] =
        .ok blocks.flatten ∧
      blocks.length = 1) :=
  ⟨(C5_generate_recommendations ⟨2026, 10, 12⟩ {} [horseC5]).1
      ⟨none, none, none⟩ (Or.inl rfl),
   by
    obtain ⟨blocks, h1, h2, _⟩ :=
      ((C5_generate_recommendations ⟨2026, 10, 12⟩ {} [horseC5]).2.1
        ⟨["trot"], fun _ => [1]⟩ ⟨fun _ => []⟩ none).2 (by simp)
    exact ⟨blocks, h1, h2⟩⟩

/-! ## Claim C9 — `load_config` environment overrides (`src/config.py`) -/

/-- A Python configuration value. `pbool` is kept distinct from `pint`
because `load_config` tests `isinstance(..., bool)` before
`isinstance(..., int)`. -/
inductive PyVal where
  | pstr (s : String)
  | pint (n : Int)
  | pbool (b : Bool)
  | pfloat (q : Rat)
  | pdict (fields : List (String × PyVal))
deriving Repr

/-- Association-list lookup for Python dicts of config values. -/
def pGet (o : List (String × PyVal)) (k : String) : Option PyVal :=
  match o with
  | [] => none
  | (k', v) :: rest => if k' = k then some v else pGet rest k

/-- In-place update of an existing key, preserving insertion order. -/
def setAssoc (o : List (String × PyVal)) (k : String) (v : PyVal) :
    List (String × PyVal) :=
  o.map (fun kv => if kv.1 = k then (k, v) else kv)

/-- The `default_config` literal of `load_config` (lines 22–51). -/
def defaultConfig : List (String × PyVal) :=
  [("model", .pdict
      [("type", .pstr "random_forest"),
       ("params", .pdict
         [("n_estimators", .pint 100),
          ("max_depth", .pint 10),
          ("random_state", .pint 42)])]),
   ("training", .pdict
      [("test_size", .pfloat (1/5)),
       ("validation_method", .pstr "cross_val"),
       ("n_splits", .pint 5)]),
   ("features", .pdict
      [("include_weather", .pbool true),
       ("include_diet", .pbool true),
       ("include_medical", .pbool true),
       ("include_lineage", .pbool true)]),
   ("recommendations", .pdict
      [("max_per_horse", .pint 5),
       ("min_confidence", .pfloat (7/10))]),
   ("api", .pdict
      [("host", .pstr "0.0.0.0"),
       ("port", .pint 8000),
       ("debug", .pbool false)])]

/-- The process environment, `os.environ`. -/
def envGet (e : List (String × String)) (k : String) : Option String :=
  match e with
  | [] => none
  | (k', v) :: rest => if k' = k then some v else envGet rest k

/-- Numeric value of a digit string. -/
def digitsVal (l : List Char) : Nat :=
  l.foldl (fun acc c => 10 * acc + (c.toNat - 48)) 0

/-- Python `int(s)` on the sign-and-digits core of its grammar (the
whitespace/underscore forms it additionally accepts are not modelled; they
only widen the accepted set).  Failure models `ValueError`. -/
def parseIntStr (s : String) : Except String Int :=
  let core : Bool × List Char :=
    match s.data with
    | '-' :: rest => (true, rest)
    | '+' :: rest => (false, rest)
    | chars => (false, chars)
  if core.2 ≠ [] ∧ core.2.all (fun c => '0' ≤ c ∧ c ≤ '9') then
    .ok (if core.1 then -(digitsVal core.2 : Int) else (digitsVal core.2 : Int))
  else .error ("ValueError: invalid literal for int: " ++ s)

/-- Python `float(s)` on the sign, integer-digits and fraction-digits core
of its grammar.  Failure models `ValueError`. -/
def parseFloatStr (s : String) : Except String Rat :=
  let core : Rat × String :=
    if s.startsWith "-" then (-1, s.drop 1)
    else if s.startsWith "+" then (1, s.drop 1) else (1, s)
  match (core.2.splitOn ".").map String.data with
  | [a] =>
    if a ≠ [] ∧ a.all (fun c => '0' ≤ c ∧ c ≤ '9') then
      .ok (core.1 * (digitsVal a : Rat))
    else .error ("ValueError: could not convert string to float: " ++ s)
  | [a, b] =>
    if (a ++ b) ≠ [] ∧ (a ++ b).all (fun c => '0' ≤ c ∧ c ≤ '9') then
      .ok (core.1 * ((digitsVal a : Rat) + (digitsVal b : Rat) / 10 ^ b.length))
    else .error ("ValueError: could not convert string to float: " ++ s)
  | _ => .error ("ValueError: could not convert string to float: " ++ s)

/-- The type-directed coercion of an environment string (lines 71–79):
the branch is chosen by the type of the current value; the fallback branch
stores the raw string. -/
def coerceEnv (original : PyVal) (v : String) : Except String PyVal :=
  match original with
  | .pbool _ => .ok (.pbool (v.toLower ∈ ["true", "yes", "1"]))
  | .pint _ =>
    match parseIntStr v with
    | .ok n => .ok (.pint n)
    | .error e => .error e
  | .pfloat _ =>
    match parseFloatStr v with
    | .ok q => .ok (.pfloat q)
    | .error e => .error e
  | _ => .ok (.pstr v)

/-- `str.upper()` on an ASCII character (all configuration keys are ASCII). -/
def upperChar (c : Char) : Char :=
  if 'a' ≤ c ∧ c ≤ 'z' then Char.ofNat (c.toNat - 32) else c

/-- `str.upper()` for the ASCII configuration key names. -/
def strUpper (s : String) : String := String.mk (s.data.map upperChar)

/-- The environment-variable name `HORSE_TRAINER_<SECTION>_<KEY>`. -/
def envVarName (key1 key2 : String) : String :=
  "HORSE_TRAINER_" ++ strUpper key1 ++ "_" ++ strUpper key2

/-- The inner loop `for key2 in default_config[key1].keys()`, threading the
in-place updates of the section dict. -/
def overrideKeys (env : List (String × String)) (key1 : String) :
    List String → List (String × PyVal) → Except String (List (String × PyVal))
  | [], acc => .ok acc
  | k :: rest, acc =>
    match envGet env (envVarName key1 k) with
    | none => overrideKeys env key1 rest acc
    | some v =>
      match pGet acc k with
      | none => overrideKeys env key1 rest acc
      | some orig =>
        match coerceEnv orig v with
        | .error e => .error e
        | .ok c => overrideKeys env key1 rest (setAssoc acc k c)

/-- The outer loop `for key1 in default_config.keys()`: only dict-valued
sections are descended into. -/
def overrideTop (env : List (String × String)) :
    List String → List (String × PyVal) → Except String (List (String × PyVal))
  | [], acc => .ok acc
  | k1 :: rest, acc =>
    match pGet acc k1 with
    | some (.pdict inner) =>
      match overrideKeys env k1 (inner.map Prod.fst) inner with
      | .error e => .error e
      | .ok inner' => overrideTop env rest (setAssoc acc k1 (.pdict inner'))
    | _ => overrideTop env rest acc

/-- `default_config.update(file_config)`: a shallow top-level merge. -/
def shallowUpdate (base d : List (String × PyVal)) : List (String × PyVal) :=
  d.foldl (fun acc kv =>
    if (pGet acc kv.1).isSome then setAssoc acc kv.1 kv.2
    else acc ++ [kv]) base

/-- The state of the configuration file: missing, unparseable, or parsed
to a Python dict. -/
inductive CFile where
  | missing
  | badJson
  | parsed (d : List (String × PyVal))

/-- `load_config` (lines 11–81): defaults, shallow file merge (missing or
unparseable files fall back to the defaults), then environment overrides. -/
def load_config (file : CFile) (env : List (String × String)) :
    Except String (List (String × PyVal)) :=
  let base :=
    match file with
    | .missing => defaultConfig
    | .badJson => defaultConfig
    | .parsed d => shallowUpdate defaultConfig d
  overrideTop env (base.map Prod.fst) base

/-- The scalar (section, key) leaves of the recognized configuration
sections; `model.params` is a nested mapping, not a scalar leaf, and its
contents are not reachable by the two-component naming scheme. -/
def configLeaves : List (String × String) :=
  [("model", "type"),
   ("training", "test_size"), ("training", "validation_method"),
   ("training", "n_splits"),
   ("features", "include_weather"), ("features", "include_diet"),
   ("features", "include_medical"), ("features", "include_lineage"),
   ("recommendations", "max_per_horse"), ("recommendations", "min_confidence"),
   ("api", "host"), ("api", "port"), ("api", "debug")]

/-- Read one leaf of a two-level configuration. -/
def getLeaf (cfg : List (String × PyVal)) (s k : String) : Option PyVal :=
  match pGet cfg s with
  | some (.pdict inner) => pGet inner k
  | _ => none

/-- Replace one leaf of a two-level configuration. -/
def setLeaf (cfg : List (String × PyVal)) (s k : String) (c : PyVal) :
    List (String × PyVal) :=
  cfg.map (fun kv =>
    if kv.1 = s then
      (kv.1, match kv.2 with
             | .pdict inner => PyVal.pdict (setAssoc inner k c)
             | o => o)
    else kv)

/-! The fourteen environment-variable names, reduced to literals so that
simp can decide the name comparisons in the override loops. -/

theorem envName_model_type : envVarName "model" "type" = "HORSE_TRAINER_MODEL_TYPE" := by decide

theorem envName_model_params : envVarName "model" "params" = "HORSE_TRAINER_MODEL_PARAMS" := by decide

theorem envName_training_test_size : envVarName "training" "test_size" = "HORSE_TRAINER_TRAINING_TEST_SIZE" := by decide

theorem envName_training_validation_method : envVarName "training" "validation_method" = "HORSE_TRAINER_TRAINING_VALIDATION_METHOD" := by decide

theorem envName_training_n_splits : envVarName "training" "n_splits" = "HORSE_TRAINER_TRAINING_N_SPLITS" := by decide

theorem envName_features_include_weather : envVarName "features" "include_weather" = "HORSE_TRAINER_FEATURES_INCLUDE_WEATHER" := by decide

theorem envName_features_include_diet : envVarName "features" "include_diet" = "HORSE_TRAINER_FEATURES_INCLUDE_DIET" := by decide

theorem envName_features_include_medical : envVarName "features" "include_medical" = "HORSE_TRAINER_FEATURES_INCLUDE_MEDICAL" := by decide

theorem envName_features_include_lineage : envVarName "features" "include_lineage" = "HORSE_TRAINER_FEATURES_INCLUDE_LINEAGE" := by decide

theorem envName_recommendations_max_per_horse : envVarName "recommendations" "max_per_horse" = "HORSE_TRAINER_RECOMMENDATIONS_MAX_PER_HORSE" := by decide

theorem envName_recommendations_min_confidence : envVarName "recommendations" "min_confidence" = "HORSE_TRAINER_RECOMMENDATIONS_MIN_CONFIDENCE" := by decide

theorem envName_api_host : envVarName "api" "host" = "HORSE_TRAINER_API_HOST" := by decide

theorem envName_api_port : envVarName "api" "port" = "HORSE_TRAINER_API_PORT" := by decide

theorem envName_api_debug : envVarName "api" "debug" = "HORSE_TRAINER_API_DEBUG" := by decide

/-- C9: for every scalar leaf (section, key) of the recognized
configuration sections, with the configuration file absent and the single
environment variable `HORSE_TRAINER_<SECTION>_<KEY>` set to a string that
coerces to the type of the leaf's default value, `load_config` returns the
default configuration with exactly that leaf overridden by the coerced
value.  (The nested `model.params` mapping is not a scalar leaf; its
entries are not reachable by this naming scheme.) -/
theorem C9_env_override (s k : String) (hmem : (s, k) ∈ configLeaves)
    (v : String) (c : PyVal)
    (hco : coerceEnv ((getLeaf defaultConfig s k).getD (.pstr "")) v = .ok c) :
    load_config .missing [(envVarName s k, v)] =
      .ok (setLeaf defaultConfig s k c) := by
  fin_cases hmem <;>
  · simp [getLeaf, pGet, defaultConfig] at hco
    simp [load_config, defaultConfig, overrideTop, overrideKeys, pGet,
      setAssoc, envGet, setLeaf, hco,
      envName_model_type, envName_model_params, envName_training_test_size,
      envName_training_validation_method, envName_training_n_splits,
      envName_features_include_weather, envName_features_include_diet,
      envName_features_include_medical, envName_features_include_lineage,
      envName_recommendations_max_per_horse,
      envName_recommendations_min_confidence,
      envName_api_host, envName_api_port, envName_api_debug]

/-- Witness for C9: overriding `api.port` with "9090" yields the default
configuration with that leaf coerced to the integer 9090. -/
theorem C9_env_override_witness :
    load_config .missing [(envVarName "api" "port", "9090")] =
      .ok (setLeaf defaultConfig "api" "port" (.pint 9090)) :=
  C9_env_override "api" "port" (by decide) "9090" (.pint 9090) (by rfl)

/-! ## `DataPreprocessor` (`src/data/preprocessor.py`)

The frame is modelled with its dtype partition precomputed
(`select_dtypes` groups): an optional `horse_id` column, numeric columns
(cells are `Option Rat`, `none` being NaN) and categorical (string)
columns.  The three stored estimators are modelled by their fitted
statistics: the imputer by per-column means over the fitting batch, the
scaler by per-column (mean, scale) pairs, the encoder by per-column
category lists.  `StandardScaler`'s `scale_` is the square root of the
variance (1 when the variance is 0); the executable `ratSqrt` below is a
rational approximation of that square root — the claims proved here depend
only on it being a deterministic function of the fitted statistics. -/

structure DF where
  idCol : Option (List String)
  numCols : List (String × List (Option Rat))
  catCols : List (String × List String)
deriving DecidableEq, Repr

structure OutDF where
  idCol : Option (List String)
  cols : List (String × List Rat)
deriving DecidableEq, Repr

/-- The preprocessor's mutable state: the three estimators of `__init__`
(whose fitted parameters start absent) and the `fitted` flag. -/
structure PState where
  imputerStats : Option (List (Option Rat)) := none
  scalerStats : Option (List (Rat × Rat)) := none
  encoderCats : Option (List (List String)) := none
  fitted : Bool := false
deriving DecidableEq, Repr

/-- The freshly constructed `DataPreprocessor()`. -/
def initPState : PState := {}

/-- Mean of the non-missing entries of a column (`SimpleImputer` with
`strategy='mean'`); an all-missing column has no statistic. -/
def colMean (l : List (Option Rat)) : Option Rat :=
  let xs := l.filterMap id
  if xs.isEmpty then none else some (xs.sum / (xs.length : Rat))

/-- `SimpleImputer.fit`: per-column means. -/
def imputerFit (cols : List (String × List (Option Rat))) :
    List (Option Rat) :=
  cols.map (fun c => colMean c.2)

/-- `SimpleImputer.transform` followed by the pandas column assignment:
fails if the imputer is unfitted (`NotFittedError`), or if the stored
statistics do not line up with the columns — in particular a column that
was all-missing at fit time is dropped by the imputer, which makes the
assignment `df[numerical_cols] = ...` fail. -/
def imputerTransform (stats? : Option (List (Option Rat)))
    (cols : List (String × List (Option Rat))) :
    Except String (List (String × List Rat)) :=
  match stats? with
  | none => .error "NotFittedError: This SimpleImputer instance is not fitted yet"
  | some stats =>
    if stats.length = cols.length ∧ stats.all Option.isSome = true then
      .ok ((cols.zip stats).map (fun cs =>
        (cs.1.1, cs.1.2.map (fun x? => x?.getD (cs.2.getD 0)))))
    else .error "ValueError: imputer statistics do not match the columns"

/-- Executable rational approximation of the square root (see the section
comment). -/
def ratSqrt (q : Rat) : Rat :=
  if q ≤ 0 then 0 else (Nat.sqrt (q.num.toNat * q.den) : Rat) / q.den

/-- `StandardScaler.fit`: per-column mean and scale (`sqrt` of the biased
variance, 1 when the variance is 0). -/
def scalerFit (cols : List (String × List Rat)) : List (Rat × Rat) :=
  cols.map (fun c =>
    let n := c.2.length
    let m := if n = 0 then 0 else c.2.sum / (n : Rat)
    let v := if n = 0 then 0 else (c.2.map (fun x => (x - m) ^ 2)).sum / (n : Rat)
    (m, if v = 0 then 1 else ratSqrt v))

/-- `StandardScaler.transform`. -/
def scalerTransform (stats? : Option (List (Rat × Rat)))
    (cols : List (String × List Rat)) :
    Except String (List (String × List Rat)) :=
  match stats? with
  | none => .error "NotFittedError: This StandardScaler instance is not fitted yet"
  | some stats =>
    if stats.length = cols.length then
      .ok ((cols.zip stats).map (fun cs =>
        (cs.1.1, cs.1.2.map (fun x => (x - cs.2.1) / cs.2.2))))
    else .error "ValueError: scaler statistics do not match the columns"

/-- Insertion into a ≤-sorted list of strings. -/
def insertStr (x : String) : List String → List String
  | [] => [x]
  | y :: ys => if x ≤ y then x :: y :: ys else y :: insertStr x ys

/-- Sorted distinct categories (`np.unique`, as `OneHotEncoder.fit` uses). -/
def sortStrings : List String → List String
  | [] => []
  | x :: xs => insertStr x (sortStrings xs)

/-- `OneHotEncoder.fit`: per-column sorted distinct categories. -/
def encoderFit (cols : List (String × List String)) : List (List String) :=
  cols.map (fun c => sortStrings c.2.eraseDups)

/-- `OneHotEncoder.transform` with `handle_unknown='ignore'`: one indicator
column per fitted category (named `<col>_<category>` as
`get_feature_names_out` does); a value unseen at fit time produces an
all-zero row. -/
def encoderTransform (cats? : Option (List (List String)))
    (cols : List (String × List String)) :
    Except String (List (String × List Rat)) :=
  match cats? with
  | none => .error "NotFittedError: This OneHotEncoder instance is not fitted yet"
  | some cats =>
    if cats.length = cols.length then
      .ok ((cols.zip cats).flatMap (fun cc =>
        cc.2.map (fun cat =>
          (cc.1.1 ++ "_" ++ cat,
           cc.1.2.map (fun v => if v = cat then (1 : Rat) else 0)))))
    else .error "ValueError: encoder categories do not match the columns"

/-- The numeric half of `_preprocess_dataframe` (lines 167–190): imputation
then scaling, each fitting first when `fit` is set or the preprocessor is
not yet fitted; the imputer block also sets `self.fitted = True`, which is
why an unfitted `fit=False` call still reaches the scaler unfitted. -/
def numStep (numCols : List (String × List (Option Rat))) (fit : Bool)
    (st : PState) : Except String (List (String × List Rat) × PState) :=
  if numCols.isEmpty then .ok ([], st)
  else
    let st1 :=
      if fit || !st.fitted then
        { st with imputerStats := some (imputerFit numCols), fitted := true }
      else st
    (imputerTransform st1.imputerStats numCols).bind (fun imputed =>
      let st2 :=
        if fit || !st1.fitted then
          { st1 with scalerStats := some (scalerFit imputed) }
        else st1
      (scalerTransform st2.scalerStats imputed).bind (fun scaled =>
        .ok (scaled, st2)))

/-- The categorical half of `_preprocess_dataframe` (lines 192–214):
one-hot encoding, fitting first when `fit` is set or the preprocessor is
not yet fitted (this block does not touch `self.fitted`). -/
def catStep (catCols : List (String × List String)) (fit : Bool)
    (st : PState) : Except String (List (String × List Rat) × PState) :=
  if catCols.isEmpty then .ok ([], st)
  else
    let st3 :=
      if fit || !st.fitted then
        { st with encoderCats := some (encoderFit catCols) }
      else st
    (encoderTransform st3.encoderCats catCols).bind (fun enc =>
      .ok (enc, st3))

/-- `DataPreprocessor._preprocess_dataframe` (lines 143–220): set the id
column aside, run the numeric then the categorical half, and reassemble
(scaled numeric columns, then the encoded columns, the id column back at
the end). -/
def preprocessDataframe (df : DF) (fit : Bool) (st : PState) :
    Except String (OutDF × PState) :=
  (numStep df.numCols fit st).bind (fun p =>
    (catStep df.catCols fit p.2).bind (fun q =>
      .ok (⟨df.idCol, p.1 ++ q.1⟩, q.2)))

/-- The `intensity_counts` dict updates of `preprocess_horse_data`
(lines 83–85): `intensity_counts[session.intensity] += 1` raises `KeyError`
for any intensity outside {low, medium, high}. -/
def countIntensities : List TrainingSession → Except String (Nat × Nat × Nat)
  | [] => .ok (0, 0, 0)
  | s :: rest =>
    match countIntensities rest with
    | .error e => .error e
    | .ok (lo, me, hi) =>
      if s.intensity = "low" then .ok (lo + 1, me, hi)
      else if s.intensity = "medium" then .ok (lo, me + 1, hi)
      else if s.intensity = "high" then .ok (lo, me, hi + 1)
      else .error ("KeyError: " ++ s.intensity)

/-- Mean `performance_rating` of a horse's sessions of one activity;
`NaN` when the horse has no history or none of that activity. -/
def avgPerfActivity (h : HorseProfile) (a : String) : Option Rat :=
  if h.training_history.isEmpty then none
  else
    let perfs := (h.training_history.filter
      (fun s => s.activity_type = a)).map
        (fun s => (s.performance_rating : Rat))
    if perfs.isEmpty then none else some (perfs.sum / (perfs.length : Rat))

/-- One intensity-percentage cell: `NaN` when the horse has no history. -/
def pctCell (h : HorseProfile) (count total : Nat) : Option Rat :=
  if h.training_history.isEmpty then none
  else if total > 0 then some ((count : Rat) / (total : Rat) * 100) else none

/-- The canonical activity vocabulary of `preprocess_horse_data`. -/
def activityVocab : List String :=
  ["trot", "canter", "gallop", "jump", "dressage", "trail", "groundwork"]

/-- The feature frame built by `preprocess_horse_data` (lines 47–110) before
`_preprocess_dataframe` is applied: per-horse scalars and flags, per-activity
mean performances, and the intensity distribution (columns in the dict-key
order of the source).  `pd.DataFrame([])` on an empty profile list has no
columns at all. -/
def preprocessorFrame (today : Date) (profiles : List HorseProfile) :
    Except String DF :=
  if profiles.isEmpty then .ok ⟨none, [], []⟩
  else
    match exMap (fun h => countIntensities h.training_history) profiles with
    | .error e => .error e
    | .ok counts =>
      .ok
        { idCol := some (profiles.map (fun h => h.id)),
          numCols :=
            [("age", profiles.map (fun h => some ((h.age today : Int) : Rat))),
             ("height_hands", profiles.map (fun h => some h.height_hands)),
             ("weight_kg", profiles.map (fun h => some h.weight_kg)),
             ("has_medical_conditions", profiles.map (fun h =>
                some (if h.hasMedicalConditions today then (1 : Rat) else 0))),
             ("has_dietary_restrictions", profiles.map (fun h =>
                some (if h.dietary_restrictions.length > 0 then (1 : Rat) else 0))),
             ("has_lineage_info", profiles.map (fun h =>
                some (if h.lineage.length > 0 then (1 : Rat) else 0)))] ++
            activityVocab.map (fun a =>
              ("avg_perf_" ++ a, profiles.map (fun h => avgPerfActivity h a))) ++
            [("pct_low_intensity", (profiles.zip counts).map (fun hc =>
                pctCell hc.1 hc.2.1 (hc.2.1 + hc.2.2.1 + hc.2.2.2))),
             ("pct_medium_intensity", (profiles.zip counts).map (fun hc =>
                pctCell hc.1 hc.2.2.1 (hc.2.1 + hc.2.2.1 + hc.2.2.2))),
             ("pct_high_intensity", (profiles.zip counts).map (fun hc =>
                pctCell hc.1 hc.2.2.2 (hc.2.1 + hc.2.2.1 + hc.2.2.2)))],
          catCols :=
            [("breed", profiles.map (fun h => h.breed)),
             ("sex", profiles.map (fun h => h.sex)),
             ("color", profiles.map (fun h => h.color))] }

/-- `DataPreprocessor.preprocess_horse_data`: build the feature frame, then
run `_preprocess_dataframe` on it. -/
def preprocessHorseData (today : Date) (profiles : List HorseProfile)
    (fit : Bool) (st : PState) : Except String (OutDF × PState) :=
  (preprocessorFrame today profiles).bind (fun df =>
    preprocessDataframe df fit st)

/-! ## Claims C3 and C8 — preprocessor state lemmas -/

theorem numStep_reuse_of_fitted (cols : List (String × List (Option Rat)))
    (st : PState) (out : List (String × List Rat)) (st' : PState)
    (hf : st.fitted = true) (h : numStep cols false st = .ok (out, st')) :
    st' = st := by
  unfold numStep at h
  by_cases hc : cols.isEmpty
  · simp [hc] at h
    exact h.2.symm
  · rw [if_neg hc] at h
    simp only [hf, Bool.not_true, Bool.false_or, Bool.false_eq_true,
      reduceIte] at h
    cases him : imputerTransform st.imputerStats cols with
    | error e => rw [him] at h; simp [Except.bind] at h
    | ok imputed =>
      rw [him] at h
      simp only [Except.bind] at h
      cases hsc : scalerTransform st.scalerStats imputed with
      | error e => rw [hsc] at h; simp [Except.bind] at h
      | ok scaled =>
        rw [hsc] at h
        simp only [Except.bind] at h
        simp at h
        exact h.2.symm

theorem catStep_reuse_of_fitted (cats : List (String × List String))
    (st : PState) (out : List (String × List Rat)) (st' : PState)
    (hf : st.fitted = true) (h : catStep cats false st = .ok (out, st')) :
    st' = st := by
  unfold catStep at h
  by_cases hc : cats.isEmpty
  · simp [hc] at h
    exact h.2.symm
  · rw [if_neg hc] at h
    simp only [hf, Bool.not_true, Bool.false_or, Bool.false_eq_true,
      reduceIte] at h
    cases hen : encoderTransform st.encoderCats cats with
    | error e => rw [hen] at h; simp [Except.bind] at h
    | ok enc =>
      rw [hen] at h
      simp only [Except.bind] at h
      simp at h
      exact h.2.symm

theorem numStep_fit_reuse (cols : List (String × List (Option Rat)))
    (st : PState) (out : List (String × List Rat)) (stA : PState)
    (h : numStep cols true st = .ok (out, stA)) (stB : PState)
    (h1 : stB.imputerStats = stA.imputerStats)
    (h2 : stB.scalerStats = stA.scalerStats)
    (h3 : stB.fitted = stA.fitted) :
    numStep cols false stB = .ok (out, stB) := by
  unfold numStep at h ⊢
  by_cases hc : cols.isEmpty
  · simp [hc] at h ⊢
    exact h.1
  · rw [if_neg hc] at h ⊢
    simp only [Bool.true_or, reduceIte] at h
    cases him : imputerTransform (some (imputerFit cols)) cols with
    | error e => rw [him] at h; simp [Except.bind] at h
    | ok imputed =>
      rw [him] at h
      simp only [Except.bind] at h
      cases hsc : scalerTransform (some (scalerFit imputed)) imputed with
      | error e => rw [hsc] at h; simp [Except.bind] at h
      | ok scaled =>
        rw [hsc] at h
        simp only [Except.bind] at h
        simp at h
        obtain ⟨hout, hstA⟩ := h
        have hif : stB.fitted = true := by rw [h3, ← hstA]
        have hii : stB.imputerStats = some (imputerFit cols) := by
          rw [h1, ← hstA]
        have his : stB.scalerStats = some (scalerFit imputed) := by
          rw [h2, ← hstA]
        simp only [hif, Bool.not_true, Bool.false_or, Bool.false_eq_true,
          reduceIte, hii, his, him, hsc, Except.bind]
        exact congrArg (fun x => Except.ok (x, stB)) hout

theorem catStep_fit_reuse (cats : List (String × List String))
    (st : PState) (out : List (String × List Rat)) (stB : PState)
    (h : catStep cats true st = .ok (out, stB)) :
    catStep cats false stB = .ok (out, stB) := by
  unfold catStep at h ⊢
  by_cases hc : cats.isEmpty
  · simp [hc] at h ⊢
    exact h.1
  · rw [if_neg hc] at h ⊢
    simp only [Bool.true_or, reduceIte] at h
    cases hen : encoderTransform (some (encoderFit cats)) cats with
    | error e => rw [hen] at h; simp [Except.bind] at h
    | ok enc =>
      rw [hen] at h
      simp only [Except.bind] at h
      simp at h
      obtain ⟨hout, hstB⟩ := h
      have hee : stB.encoderCats = some (encoderFit cats) := by rw [← hstB]
      by_cases hf : stB.fitted
      · simp only [hf, Bool.not_true, Bool.false_or, Bool.false_eq_true,
          reduceIte, hee, hen, Except.bind]
        exact congrArg (fun x => Except.ok (x, stB)) hout
      · simp only [Bool.not_eq_true] at hf
        have hfB : stB.fitted = false := hf
        have hupd : PState.mk stB.imputerStats stB.scalerStats
            (some (encoderFit cats)) false = stB := by
          cases stB
          simp_all
        simp only [hfB, Bool.not_false, Bool.or_true, reduceIte, hupd, hee,
          hen, Except.bind]
        exact congrArg (fun x => Except.ok (x, stB)) hout

theorem catStep_fields (cats : List (String × List String)) (fit : Bool)
    (st : PState) (out : List (String × List Rat)) (st' : PState)
    (h : catStep cats fit st = .ok (out, st')) :
    st'.imputerStats = st.imputerStats ∧ st'.scalerStats = st.scalerStats ∧
      st'.fitted = st.fitted := by
  unfold catStep at h
  by_cases hc : cats.isEmpty
  · simp [hc] at h
    rw [← h.2]
    exact ⟨rfl, rfl, rfl⟩
  · rw [if_neg hc] at h
    by_cases hcond : (fit || !st.fitted) = true
    · rw [if_pos hcond] at h
      simp only [Except.bind] at h
      cases hen : encoderTransform (some (encoderFit cats)) cats with
      | error e => rw [hen] at h; simp at h
      | ok enc =>
        rw [hen] at h
        simp at h
        rw [← h.2]
        exact ⟨rfl, rfl, rfl⟩
    · rw [if_neg hcond] at h
      simp only [Except.bind] at h
      cases hen : encoderTransform st.encoderCats cats with
      | error e => rw [hen] at h; simp at h
      | ok enc =>
        rw [hen] at h
        simp at h
        rw [← h.2]
        exact ⟨rfl, rfl, rfl⟩

theorem preprocessorFrame_shape (today : Date) (profiles : List HorseProfile)
    (df : DF) (hp : profiles ≠ [])
    (h : preprocessorFrame today profiles = .ok df) :
    df.numCols.isEmpty = false ∧ df.catCols.isEmpty = false := by
  unfold preprocessorFrame at h
  cases profiles with
  | nil => exact absurd rfl hp
  | cons a l =>
    simp only [List.isEmpty_cons, Bool.false_eq_true, reduceIte] at h
    cases hint : exMap (fun h => countIntensities h.training_history) (a :: l) with
    | error e => rw [hint] at h; simp at h
    | ok counts =>
      rw [hint] at h
      simp at h
      rw [← h]
      exact ⟨rfl, rfl⟩

/-- C8: a `fit=True` preprocessing call followed by a `fit=False` call on
the same batch, without an intervening refit, returns exactly the same
output table and leaves the state untouched: the stored imputation, scaling
and encoding parameters are reused, not recomputed. -/
theorem C8_fit_then_transform_idempotent (today : Date)
    (profiles : List HorseProfile) (st : PState) (out : OutDF) (st1 : PState)
    (h : preprocessHorseData today profiles true st = .ok (out, st1)) :
    preprocessHorseData today profiles false st1 = .ok (out, st1) := by
  unfold preprocessHorseData at h ⊢
  cases hfr : preprocessorFrame today profiles with
  | error e => rw [hfr] at h; simp [Except.bind] at h
  | ok df =>
    rw [hfr] at h
    simp only [Except.bind] at h ⊢
    unfold preprocessDataframe at h ⊢
    cases hns : numStep df.numCols true st with
    | error e => rw [hns] at h; simp [Except.bind] at h
    | ok p =>
      rw [hns] at h
      simp only [Except.bind] at h
      cases hcs : catStep df.catCols true p.2 with
      | error e => rw [hcs] at h; simp [Except.bind] at h
      | ok q =>
        rw [hcs] at h
        simp only [Except.bind] at h
        simp at h
        obtain ⟨hout, hst⟩ := h
        obtain ⟨f1, f2, f3⟩ := catStep_fields df.catCols true p.2 q.1 q.2 hcs
        have hn := numStep_fit_reuse df.numCols st p.1 p.2 hns st1
          (by rw [← hst]; exact f1) (by rw [← hst]; exact f2)
          (by rw [← hst]; exact f3)
        have hcrec := catStep_fit_reuse df.catCols p.2 q.1 q.2 hcs
        rw [hst] at hcrec
        rw [hn]
        simp only [Except.bind]
        rw [hcrec]
        simp only [Except.bind]
        rw [← hout, ← hst]

theorem imputerTransform_fit_ok (cols : List (String × List (Option Rat)))
    (himp : (imputerFit cols).all Option.isSome = true) :
    imputerTransform (some (imputerFit cols)) cols =
      .ok ((cols.zip (imputerFit cols)).map (fun cs =>
        (cs.1.1, cs.1.2.map (fun x? => x?.getD (cs.2.getD 0))))) := by
  simp only [imputerTransform]
  rw [if_pos ⟨by simp [imputerFit], himp⟩]

/-- C3 (amended): before any successful fit, a `fit=False` call on a
nonempty batch whose numeric columns all have at least one present value
fails with the scaler's `NotFittedError` — the imputer block fits itself
and sets `self.fitted`, so the scaler is reached unfitted; a `fit=True`
call recomputes and stores all parameters from the batch alone,
independently of any previously stored state; and a `fit=False` call on a
fitted preprocessor leaves every stored parameter unchanged.  The two
qualifications are necessary: an empty batch returns successfully, and a
batch with an all-missing numeric column fails with a pandas `ValueError`
instead (see the C3 counterexample). -/
theorem C3_preprocessor_contract (today : Date) :
    (∀ profiles df, profiles ≠ [] →
      preprocessorFrame today profiles = .ok df →
      (imputerFit df.numCols).all Option.isSome = true →
      preprocessHorseData today profiles false initPState =
        .error "NotFittedError: This StandardScaler instance is not fitted yet") ∧
    (∀ profiles st st', profiles ≠ [] →
      preprocessHorseData today profiles true st =
        preprocessHorseData today profiles true st') ∧
    (∀ profiles st out st', st.fitted = true →
      preprocessHorseData today profiles false st = .ok (out, st') →
      st' = st) := by
  refine ⟨?_, ?_, ?_⟩
  · intro profiles df hp hfr himp
    obtain ⟨hnum, _⟩ := preprocessorFrame_shape today profiles df hp hfr
    unfold preprocessHorseData
    rw [hfr]
    simp only [Except.bind]
    unfold preprocessDataframe numStep
    rw [if_neg (by simp [hnum])]
    simp only [initPState, Bool.not_false, Bool.or_true, reduceIte]
    rw [imputerTransform_fit_ok df.numCols himp]
    simp only [Except.bind, Bool.not_true, Bool.false_or,
      Bool.false_eq_true, reduceIte, scalerTransform]
  · intro profiles st st' hp
    unfold preprocessHorseData
    cases hfr : preprocessorFrame today profiles with
    | error e => rfl
    | ok df =>
      obtain ⟨hnum, hcat⟩ := preprocessorFrame_shape today profiles df hp hfr
      simp only [Except.bind]
      unfold preprocessDataframe numStep catStep
      simp only [hnum, hcat, Bool.false_eq_true, Bool.true_or, reduceIte]
      cases him : imputerTransform (some (imputerFit df.numCols)) df.numCols with
      | error e => rfl
      | ok imputed =>
        simp only [Except.bind]
        cases hsc : scalerTransform (some (scalerFit imputed)) imputed with
        | error e => rfl
        | ok scaled => simp only [Except.bind]
  · intro profiles st out st' hf h
    unfold preprocessHorseData at h
    cases hfr : preprocessorFrame today profiles with
    | error e => rw [hfr] at h; simp [Except.bind] at h
    | ok df =>
      rw [hfr] at h
      simp only [Except.bind] at h
      unfold preprocessDataframe at h
      cases hns : numStep df.numCols false st with
      | error e => rw [hns] at h; simp [Except.bind] at h
      | ok p =>
        rw [hns] at h
        simp only [Except.bind] at h
        have hA : p.2 = st :=
          numStep_reuse_of_fitted df.numCols st p.1 p.2 hf hns
        cases hcs : catStep df.catCols false p.2 with
        | error e => rw [hcs] at h; simp [Except.bind] at h
        | ok q =>
          rw [hcs] at h
          simp only [Except.bind] at h
          simp at h
          have hB : q.2 = p.2 :=
            catStep_reuse_of_fitted df.catCols p.2 q.1 q.2
              (by rw [hA]; exact hf) hcs
          rw [← h.2, hB, hA]

/-- Concrete evaluation date for the preprocessor witnesses. -/
def todayC3 : Date := ⟨2026, 10, 12⟩

/-- A horse with one session of every canonical activity, so that every
`avg_perf_*` column of the feature frame has a present value. -/
def horseC3 : HorseProfile :=
  { id := "H301", name := "Willow", breed := "Arabian",
    birth_date := ⟨2018, 4, 2⟩, sex := "male", color := "bay",
    height_hands := 15, weight_kg := 480,
    training_history :=
      [⟨⟨2023, 1, 1⟩, "trot", 30, "low", 7, none⟩,
       ⟨⟨2023, 1, 2⟩, "canter", 20, "medium", 6, none⟩,
       ⟨⟨2023, 1, 3⟩, "gallop", 15, "high", 8, none⟩,
       ⟨⟨2023, 1, 4⟩, "jump", 25, "high", 7, none⟩,
       ⟨⟨2023, 1, 5⟩, "dressage", 40, "medium", 6, none⟩,
       ⟨⟨2023, 1, 6⟩, "trail", 45, "low", 7, none⟩,
       ⟨⟨2023, 1, 7⟩, "groundwork", 35, "low", 8, none⟩] }

/-- The feature frame of the witness batch. -/
def frameC3 : DF :=
  match preprocessorFrame todayC3 [horseC3] with
  | .ok df => df
  | .error _ => ⟨none, [], []⟩

/-- The result of the witness `fit=True` run from a fresh preprocessor. -/
def fitRunC3 : OutDF × PState :=
  match preprocessHorseData todayC3 [horseC3] true initPState with
  | .ok r => r
  | .error _ => (⟨none, []⟩, initPState)

/-- The result of the witness `fit=False` run on the fitted state. -/
def reuseRunC3 : OutDF × PState :=
  match preprocessHorseData todayC3 [horseC3] false fitRunC3.2 with
  | .ok r => r
  | .error _ => (⟨none, []⟩, initPState)

/-- Witness for C3 at the concrete batch. -/
theorem C3_preprocessor_contract_witness :
    preprocessHorseData todayC3 [horseC3] false initPState =
      .error "NotFittedError: This StandardScaler instance is not fitted yet" ∧
    preprocessHorseData todayC3 [horseC3] true initPState =
      preprocessHorseData todayC3 [horseC3] true ⟨none, none, none, true⟩ ∧
    reuseRunC3.2 = fitRunC3.2 :=
  ⟨(C3_preprocessor_contract todayC3).1 [horseC3] frameC3 (by simp)
      (by rfl) (by rfl),
   (C3_preprocessor_contract todayC3).2.1 [horseC3] initPState
      ⟨none, none, none, true⟩ (by simp),
   (C3_preprocessor_contract todayC3).2.2 [horseC3] fitRunC3.2 reuseRunC3.1
      reuseRunC3.2 (by rfl) (by rfl)⟩

/-- A horse with no training history: every `avg_perf_*` and `pct_*`
column of its feature frame is all-`NaN`. -/
def horseC3n : HorseProfile :=
  { id := "H302", name := "Maple", breed := "Paint",
    birth_date := ⟨2019, 6, 1⟩, sex := "female", color := "brown",
    height_hands := 14, weight_kg := 420 }

/-- C3 counterexample: a `fit=False` call before any fit does NOT always
fail with a `NotFittedError`-class condition.  On an empty batch the frame
has no columns, both the imputer and scaler blocks are skipped, and the
call returns successfully with the state untouched.  On a batch consisting
of one horse with no training history, every `avg_perf_*` and `pct_*`
column is all-`NaN`; the freshly fitted imputer drops those columns, so the
width-changing assignment back into the frame raises a pandas `ValueError`
(modelled by the imputer-statistics mismatch error) — not a
`NotFittedError`. -/
theorem C3_counterexample :
    preprocessHorseData todayC3 [] false initPState =
      .ok (⟨none, []⟩, initPState) ∧
    preprocessHorseData todayC3 [horseC3n] false initPState =
      .error "ValueError: imputer statistics do not match the columns" := by
  exact ⟨rfl, rfl⟩

/-- Witness for C8 at the concrete batch. -/
theorem C8_fit_then_transform_idempotent_witness :
    preprocessHorseData todayC3 [horseC3] false fitRunC3.2 =
      .ok (fitRunC3.1, fitRunC3.2) :=
  C8_fit_then_transform_idempotent todayC3 [horseC3] initPState fitRunC3.1
    fitRunC3.2 (by rfl)
